import Mathlib

/-!
Verification development for the ammadev repository's external-health-record
integration core: the cipher (src encryption utilities), the FHIR resource
normalizer (fhirParser), and the Epic/Plasma integration client (epicClient).

Modelling conventions:
* JavaScript strings are modelled as `List Char`; byte arrays as `List Nat`
  with every element `< 256`.
* JavaScript `null`/`undefined` on an optional field is modelled with `Option`.
  The JavaScript falsiness of the empty string is modelled explicitly
  (`jsOr`, `strOpt`).
* Effectful functions are embedded with explicit environments carrying the
  outcomes of network and storage calls, and return, besides the result, the
  number of network calls and audit-log inserts performed.
* Thrown exceptions are modelled with `Except`.
-/

/-- JavaScript string-or: `a || b` where `a` is a nullable string (empty
    string is falsy). -/
def jsOr : Option (List Char) → Option (List Char) → Option (List Char)
  | some s, y => if s = [] then y else some s
  | none, y => y

/-- JavaScript `a || dflt` with a string default. -/
def jsOrD (x : Option (List Char)) (d : List Char) : List Char :=
  (jsOr x (some d)).getD d

/-- Normalise a nullable string under JavaScript truthiness: the empty string
    collapses to null. -/
def strOpt : Option (List Char) → Option (List Char)
  | some s => if s = [] then none else some s
  | none => none

/-- JavaScript `x || null` on a nullable number: `0` is falsy and collapses
    to null. -/
def numOpt : Option Int → Option Int
  | some n => if n = 0 then none else some n
  | none => none

/-- `String.prototype.startsWith`, on character lists. -/
def startsWithL : List Char → List Char → Bool
  | [], _ => true
  | _ :: _, [] => false
  | p :: ps, c :: cs => if p = c then startsWithL ps cs else false

/-- `String.prototype.includes`, on character lists. -/
def containsL (sub : List Char) : List Char → Bool
  | [] => startsWithL sub []
  | c :: cs => startsWithL sub (c :: cs) || containsL sub cs

/-- `String.prototype.replace(pat, '')` with a string pattern: removes the
    first occurrence of `pat` only. -/
def replaceFirstL (pat : List Char) : List Char → List Char
  | [] => []
  | c :: cs =>
    if startsWithL pat (c :: cs) then (c :: cs).drop pat.length
    else c :: replaceFirstL pat cs

/-- `String.prototype.toLowerCase` (the data in this repository is ASCII). -/
def toLowerL (s : List Char) : List Char := s.map Char.toLower

/-- Whitespace test used by `String.prototype.trim`. -/
def isWsChar (c : Char) : Bool := c = ' ' || c = '\t' || c = '\n' || c = '\r'

/-- `String.prototype.trim`. -/
def trimL (s : List Char) : List Char :=
  ((s.dropWhile isWsChar).reverse.dropWhile isWsChar).reverse

/-- `Array.prototype.join(sep)` on a list of strings. -/
def joinL (sep : List Char) (l : List (List Char)) : List Char :=
  List.intercalate sep l

/-- Template-literal rendering of an integer (`toString`). -/
def numToStr (n : Int) : List Char := (toString n).toList

/-! ## Base64 (`btoa` / `atob`) -/

/-- The base64 alphabet. -/
def b64Chars : List Char :=
  "ABCDEFGHIJKLMNOPQRSTUVWXYZabcdefghijklmnopqrstuvwxyz0123456789+/".toList

/-- Character for a sextet (sextets produced by the encoder are `< 64`; the
    index is reduced mod 64 to keep the function total). -/
def b64CharAt (n : Nat) : Char := b64Chars.getD (n % 64) 'A'

/-- Index of a character in a character list. -/
def idxOfChar (c : Char) : List Char → Option Nat
  | [] => none
  | x :: xs => if x = c then some 0 else (idxOfChar c xs).map (· + 1)

/-- Sextet value of a base64 character. -/
def b64Val (c : Char) : Option Nat := idxOfChar c b64Chars

/-- `btoa` on a byte list (the bytes are the char codes of the latin-1
    string handed to `btoa`). -/
def base64Encode : List Nat → List Char
  | [] => []
  | [a] => [b64CharAt (a / 4), b64CharAt (a % 4 * 16), '=', '=']
  | [a, b] => [b64CharAt (a / 4), b64CharAt (a % 4 * 16 + b / 16), b64CharAt (b % 16 * 4), '=']
  | a :: b :: c :: rest =>
    b64CharAt (a / 4) :: b64CharAt (a % 4 * 16 + b / 16) ::
    b64CharAt (b % 16 * 4 + c / 64) :: b64CharAt (c % 64) :: base64Encode rest

/-- `atob` on a base64 string, returning the byte list (char codes of the
    returned latin-1 string); `none` models the `InvalidCharacterError`
    thrown on malformed input. -/
def base64Decode : List Char → Option (List Nat)
  | [] => some []
  | c1 :: c2 :: c3 :: c4 :: rest =>
    match b64Val c1, b64Val c2 with
    | some v1, some v2 =>
      if c3 = '=' then
        if c4 = '=' ∧ rest = [] then some [v1 * 4 + v2 / 16] else none
      else
        match b64Val c3 with
        | some v3 =>
          if c4 = '=' then
            if rest = [] then some [v1 * 4 + v2 / 16, v2 % 16 * 16 + v3 / 4] else none
          else
            match b64Val c4 with
            | some v4 =>
              (base64Decode rest).map
                (fun bs => (v1 * 4 + v2 / 16) :: (v2 % 16 * 16 + v3 / 4) :: (v3 % 4 * 64 + v4) :: bs)
            | none => none
        | none => none
    | _, _ => none
  | _ => none

/-! ## UTF-8 (`TextEncoder` / `TextDecoder`)

The model covers the one- and two-byte encodings, i.e. code units below
2048; the cipher claims quantify over byte-accurate secrets, whose code
units are all below 256. -/

/-- UTF-8 encoding of one code unit (below 2048). -/
def utf8EncCU (c : Nat) : List Nat :=
  if c < 128 then [c] else [192 + c / 64 % 32, 128 + c % 64]

/-- `TextEncoder.encode` on a list of code units. -/
def utf8Encode (l : List Nat) : List Nat := (l.map utf8EncCU).flatten

/-- `TextDecoder.decode`: total, with malformed bytes decoded to U+FFFD
    (65533) as the WHATWG decoder does. -/
def utf8DecodeLossy : List Nat → List Nat
  | [] => []
  | [b] => if b < 128 then [b] else [65533]
  | b :: b2 :: rest =>
    if b < 128 then b :: utf8DecodeLossy (b2 :: rest)
    else if 192 ≤ b ∧ b < 224 then
      if 128 ≤ b2 ∧ b2 < 192 then ((b - 192) * 64 + (b2 - 128)) :: utf8DecodeLossy rest
      else 65533 :: utf8DecodeLossy (b2 :: rest)
    else 65533 :: utf8DecodeLossy (b2 :: rest)

/-! ## AES-256-GCM model

Modelled from the spec: the WebCrypto `crypto.subtle` AES-GCM primitive used
by `encrypt`/`decrypt` is an external platform API, not code of this
repository.  The spec describes it as "an authenticated symmetric cipher
(256-bit key) with a fresh random nonce per call".  GCM is a stream cipher
(counter-mode keystream XORed into the plaintext) followed by an
authentication tag over the ciphertext; the model below reproduces exactly
that structure with a concrete keystream and tag function. -/

/-- One mixing step of the model keystream/tag hash. -/
def mixAcc (acc b : Nat) : Nat := (acc * 131 + b + 7) % 65521

/-- Hash a byte list into the accumulator. -/
def mixList (l : List Nat) (acc : Nat) : Nat := l.foldl mixAcc acc

/-- Byte `i` of the keystream derived from key and IV. -/
def gcmByte (key iv : List Nat) (i : Nat) : Nat :=
  mixList key (mixList iv (mixAcc i 0)) % 256

/-- The first `n` keystream bytes. -/
def gcmStream (key iv : List Nat) (n : Nat) : List Nat :=
  (List.range n).map (gcmByte key iv)

/-- Counter-mode core: XOR the data with the keystream (self-inverse). -/
def gcmCore (key iv data : List Nat) : List Nat :=
  List.zipWith Nat.xor data (gcmStream key iv data.length)

/-- 16-byte authentication tag over the ciphertext. -/
def gcmTag (key iv ct : List Nat) : List Nat :=
  (List.range 16).map (fun i => gcmByte key iv (mixList ct (i + 1)))

/-- `crypto.subtle.encrypt({name:'AES-GCM', iv}, key, pt)`:
    ciphertext followed by the authentication tag. -/
def aesGcmEncrypt (key iv pt : List Nat) : List Nat :=
  gcmCore key iv pt ++ gcmTag key iv (gcmCore key iv pt)

/-- `crypto.subtle.decrypt({name:'AES-GCM', iv}, key, data)`: fails (`none`)
    on truncated input or authentication-tag mismatch. -/
def aesGcmDecrypt (key iv data : List Nat) : Option (List Nat) :=
  if data.length < 16 then none
  else
    let ct := data.take (data.length - 16)
    let tag := data.drop (data.length - 16)
    if tag = gcmTag key iv ct then some (gcmCore key iv ct) else none

/-! ## The repository's cipher (`encrypt` / `decrypt`) -/

/-- The development-fallback marker prepended by `encrypt` when no key is
    configured. -/
def unencTag : List Char := "UNENCRYPTED:".toList

/-- `encrypt(text, key)` from the encryption utilities.  `key` is the
    base64-encoded 256-bit key from the environment (`none` when not
    configured); `iv` stands for the 12 random bytes drawn by
    `crypto.getRandomValues`. -/
def encrypt (text : List Char) (key : Option (List Char)) (iv : List Nat) :
    Except (List Char) (List Char) :=
  match key with
  | none =>
    -- no key: warn and return the tagged reversible encoding
    if text.all (fun c => c.toNat < 256) then
      .ok (unencTag ++ base64Encode (text.map Char.toNat))
    else .error "InvalidCharacterError".toList
  | some k =>
    match base64Decode k with
    | none => .error "Encryption failed".toList
    | some keyData =>
      if keyData.length ≠ 32 then .error "Encryption failed".toList
      else
        .ok (base64Encode (iv ++ aesGcmEncrypt keyData iv (utf8Encode (text.map Char.toNat))))

/-- `decrypt(encryptedBase64, key)` from the encryption utilities. -/
def decrypt (blob : List Char) (key : Option (List Char)) :
    Except (List Char) (List Char) :=
  if startsWithL unencTag blob then
    -- unencrypted development data: base64-decode the remainder, key unused
    match base64Decode (replaceFirstL unencTag blob) with
    | some bytes => .ok (bytes.map Char.ofNat)
    | none => .error "InvalidCharacterError".toList
  else
    match key with
    | none => .error "No encryption key available for decryption".toList
    | some k =>
      match base64Decode k with
      | none => .error "Decryption failed".toList
      | some keyData =>
        if keyData.length ≠ 32 then .error "Decryption failed".toList
        else
          match base64Decode blob with
          | none => .error "Decryption failed".toList
          | some combined =>
            match aesGcmDecrypt keyData (combined.take 12) (combined.drop 12) with
            | none => .error "Decryption failed".toList
            | some pt => .ok ((utf8DecodeLossy pt).map Char.ofNat)

/-! ## FHIR parser (fhirParser) — data model

Input resource types carry exactly the fields the parser reads; every
optional field is `Option`.  A bundle entry of a different resource kind is
represented by a value whose `resourceType` field differs; the parsers only
ever touch the fields below, all accessed with optional chaining in the
source.  JSON numbers are modelled at integer precision (no claim involves
fractional values). -/

structure Coding where
  code : Option (List Char)
  system : Option (List Char)
  display : Option (List Char)
  deriving DecidableEq

structure CodeableConcept where
  coding : Option (List Coding)
  text : Option (List Char)
  deriving DecidableEq

structure NoteElem where
  text : Option (List Char)
  deriving DecidableEq

/-- First coding of a nullable CodeableConcept: `x?.coding?.[0]`. -/
def cc0 (c : Option CodeableConcept) : Option Coding :=
  (c.bind (·.coding)).bind List.head?

structure CondResource where
  resourceType : List Char
  id : Option (List Char)
  code : Option CodeableConcept
  clinicalStatus : Option CodeableConcept
  verificationStatus : Option CodeableConcept
  category : Option (List CodeableConcept)
  severity : Option CodeableConcept
  onsetDateTime : Option (List Char)
  recordedDate : Option (List Char)
  note : Option (List NoteElem)
  deriving DecidableEq

structure CondView where
  id : Option (List Char)
  code : Option (List Char)
  system : Option (List Char)
  display : List Char
  clinicalStatus : Option (List Char)
  verificationStatus : Option (List Char)
  category : List Char
  severity : Option (List Char)
  onsetDate : Option (List Char)
  note : Option (List Char)
  raw : CondResource
  deriving DecidableEq

/-- The per-entry body of `parseConditions`' map. -/
def parseCondition1 (condition : CondResource) : CondView :=
  { id := condition.id
    code := strOpt ((cc0 condition.code).bind (·.code))
    system := strOpt ((cc0 condition.code).bind (·.system))
    display := jsOrD (jsOr ((cc0 condition.code).bind (·.display))
      (condition.code.bind (·.text))) "Unknown condition".toList
    clinicalStatus := strOpt ((cc0 condition.clinicalStatus).bind (·.code))
    verificationStatus := strOpt ((cc0 condition.verificationStatus).bind (·.code))
    category := jsOrD ((cc0 (condition.category.bind List.head?)).bind (·.display))
      "General".toList
    severity := strOpt ((cc0 condition.severity).bind (·.display))
    onsetDate := jsOr condition.onsetDateTime (jsOr condition.recordedDate none)
    note := strOpt ((condition.note.bind List.head?).bind (·.text))
    raw := condition }

/-! ### Dates and the JavaScript sort -/

/-- Decimal digit value of a character. -/
def digitVal (c : Char) : Option Nat :=
  if c.isDigit then some (c.toNat - 48) else none

/-- ISO `YYYY-MM-DD` calendar-date parser (the date shape used throughout
    this repository's data); anything else is unparseable (`Invalid Date`).
    The result `y*10000 + m*100 + d` is ordered exactly as the date's
    timestamp. -/
def parseISODate (s : List Char) : Option Nat :=
  match s with
  | [y1, y2, y3, y4, s1, m1, m2, s2, d1, d2] =>
    if s1 = '-' ∧ s2 = '-' then
      match digitVal y1, digitVal y2, digitVal y3, digitVal y4,
            digitVal m1, digitVal m2, digitVal d1, digitVal d2 with
      | some a, some b, some c, some d, some e, some f, some g, some h =>
        let y := ((a * 10 + b) * 10 + c) * 10 + d
        let mo := e * 10 + f
        let da := g * 10 + h
        if 1 ≤ mo ∧ mo ≤ 12 ∧ 1 ≤ da ∧ da ≤ 31 then some (y * 10000 + mo * 100 + da)
        else none
      | _, _, _, _, _, _, _, _ => none
    else none
  | _ => none

/-- `new Date(x).getTime()` as a sort key: `null` coerces to 0 (the epoch);
    a parseable date maps to a key ordered as its timestamp, shifted so that
    1970-01-01 is 0; an unparseable string gives NaN (`none`). -/
def dateKey (o : Option (List Char)) : Option Int :=
  match o with
  | none => some 0
  | some s => (parseISODate s).map (fun k => (k : Int) - 19700101)

/-- Comparator value `keyB - keyA` of the source's
    `(a, b) => new Date(b.date) - new Date(a.date)`; `none` models NaN. -/
def cmpVal (ka kb : Option Int) : Option Int :=
  match ka, kb with
  | some a, some b => some (b - a)
  | _, _ => none

/-- Stable insertion under JavaScript comparator semantics: an element moves
    past `y` only when the comparator value is strictly positive; a NaN
    comparator result never reorders (the engines treat it as 0). -/
def insertJs {α : Type} (key : α → Option Int) (x : α) : List α → List α
  | [] => [x]
  | y :: ys =>
    match cmpVal (key x) (key y) with
    | some v => if v > 0 then y :: insertJs key x ys else x :: y :: ys
    | none => x :: y :: ys

/-- `Array.prototype.sort((a, b) => keyOf b - keyOf a)` (descending by key):
    a stable sort, modelled as stable insertion sort; with NaN comparator
    values the ECMAScript order is implementation-defined, and this model
    matches the engines' no-reorder behaviour. -/
def jsSortDesc {α : Type} (key : α → Option Int) : List α → List α
  | [] => []
  | x :: xs => insertJs key x (jsSortDesc key xs)

/-- A JavaScript value that may or may not be an array (`Array.isArray`). -/
inductive JArg (α : Type) where
  | arr (l : List α)
  | nonArray
  deriving DecidableEq

/-- Sort key of a parsed condition: its onset date. -/
def condKey (v : CondView) : Option Int := dateKey v.onsetDate

/-- `parseConditions` from the FHIR parser. -/
def parseConditions : JArg CondResource → List CondView
  | .nonArray => []
  | .arr conditions =>
    jsSortDesc condKey
      ((conditions.filter (fun c => c.resourceType == "Condition".toList)).map parseCondition1)

/-! ### MedicationRequest -/

structure DoseQty where
  value : Option Int
  unit : Option (List Char)
  deriving DecidableEq

structure DoseAndRate where
  doseQuantity : Option DoseQty
  deriving DecidableEq

structure TimingE where
  code : Option CodeableConcept
  deriving DecidableEq

structure DosageE where
  text : Option (List Char)
  timing : Option TimingE
  route : Option CodeableConcept
  doseAndRate : Option (List DoseAndRate)
  patientInstruction : Option (List Char)
  deriving DecidableEq

structure DispenseReq where
  quantity : Option DoseQty
  numberOfRepeatsAllowed : Option Int
  deriving DecidableEq

structure MedResource where
  resourceType : List Char
  id : Option (List Char)
  medicationCodeableConcept : Option CodeableConcept
  medicationReference : Option CodeableConcept
  dosageInstruction : Option (List DosageE)
  status : Option (List Char)
  intent : Option (List Char)
  dispenseRequest : Option DispenseReq
  authoredOn : Option (List Char)
  deriving DecidableEq

structure MedView where
  id : Option (List Char)
  name : List Char
  code : Option (List Char)
  status : List Char
  intent : List Char
  dosage : Option (List Char)
  frequency : Option (List Char)
  route : Option (List Char)
  quantity : Option Int
  refills : Int
  prescribedDate : Option (List Char)
  instructions : Option (List Char)
  raw : MedResource
  deriving DecidableEq

/-- `formatDosage` helper: renders `doseAndRate[0].doseQuantity` as
    `value unit` (template-literal semantics: a missing component renders
    as "undefined"). -/
def formatDosage (dosage : Option DosageE) : Option (List Char) :=
  match dosage with
  | none => none
  | some d =>
    match (d.doseAndRate.bind List.head?).bind (·.doseQuantity) with
    | none => none
    | some dose =>
      some (((dose.value.map numToStr).getD "undefined".toList) ++ " ".toList ++
        (dose.unit.getD "undefined".toList))

/-- The per-entry body of `parseMedications`' map. -/
def parseMedication1 (med : MedResource) : MedView :=
  let medication := med.medicationCodeableConcept <|> med.medicationReference
  let dosage := med.dosageInstruction.bind List.head?
  { id := med.id
    name := jsOrD (jsOr ((cc0 medication).bind (·.display)) (medication.bind (·.text)))
      "Unknown medication".toList
    code := strOpt ((cc0 medication).bind (·.code))
    status := jsOrD med.status "unknown".toList
    intent := jsOrD med.intent "order".toList
    dosage := jsOr (dosage.bind (·.text)) (formatDosage dosage)
    frequency := strOpt (((dosage.bind (·.timing)).bind (·.code)).bind (·.text))
    route := strOpt ((cc0 (dosage.bind (·.route))).bind (·.display))
    quantity := numOpt ((med.dispenseRequest.bind (·.quantity)).bind (·.value))
    refills := ((med.dispenseRequest.bind (·.numberOfRepeatsAllowed)).getD 0)
    prescribedDate := jsOr med.authoredOn none
    instructions := strOpt (dosage.bind (·.patientInstruction))
    raw := med }

/-- Sort key of a parsed medication: its prescription date. -/
def medKey (v : MedView) : Option Int := dateKey v.prescribedDate

/-- `parseMedications` from the FHIR parser. -/
def parseMedications : JArg MedResource → List MedView
  | .nonArray => []
  | .arr medications =>
    jsSortDesc medKey
      ((medications.filter (fun m => m.resourceType == "MedicationRequest".toList)).map
        parseMedication1)

/-! ### DocumentReference -/

structure AttachmentE where
  data : Option (List Char)
  contentType : Option (List Char)
  url : Option (List Char)
  deriving DecidableEq

structure ContentE where
  attachment : Option AttachmentE
  deriving DecidableEq

structure PeriodE where
  start : Option (List Char)
  deriving DecidableEq

structure ContextE where
  period : Option PeriodE
  deriving DecidableEq

structure RefDisplay where
  display : Option (List Char)
  deriving DecidableEq

structure DocResource where
  resourceType : List Char
  id : Option (List Char)
  type : Option CodeableConcept
  category : Option (List CodeableConcept)
  date : Option (List Char)
  context : Option ContextE
  author : Option (List RefDisplay)
  description : Option (List Char)
  content : Option (List ContentE)
  deriving DecidableEq

structure DocView where
  id : Option (List Char)
  type : List Char
  category : List Char
  date : Option (List Char)
  author : List Char
  description : Option (List Char)
  content : Option (List Char)
  contentType : List Char
  url : Option (List Char)
  raw : DocResource
  deriving DecidableEq

/-- The per-entry body of `parseDocuments`' map. -/
def parseDocument1 (doc : DocResource) : DocView :=
  let attachment := (doc.content.bind List.head?).bind (·.attachment)
  { id := doc.id
    type := jsOrD (jsOr ((cc0 doc.type).bind (·.display)) (doc.type.bind (·.text)))
      "Clinical Note".toList
    category := jsOrD ((cc0 (doc.category.bind List.head?)).bind (·.display)) "General".toList
    date := jsOr doc.date (jsOr ((doc.context.bind (·.period)).bind (·.start)) none)
    author := jsOrD ((doc.author.bind List.head?).bind (·.display)) "Unknown".toList
    description := strOpt doc.description
    content := strOpt (attachment.bind (·.data))
    contentType := jsOrD (attachment.bind (·.contentType)) "text/plain".toList
    url := strOpt (attachment.bind (·.url))
    raw := doc }

/-- Sort key of a parsed document: its date. -/
def docKey (v : DocView) : Option Int := dateKey v.date

/-- `parseDocuments` from the FHIR parser. -/
def parseDocuments : JArg DocResource → List DocView
  | .nonArray => []
  | .arr documents =>
    jsSortDesc docKey
      ((documents.filter (fun d => d.resourceType == "DocumentReference".toList)).map
        parseDocument1)

/-! ### Observation -/

structure RefRange where
  text : Option (List Char)
  deriving DecidableEq

structure ObsResource where
  resourceType : List Char
  id : Option (List Char)
  code : Option CodeableConcept
  category : Option (List CodeableConcept)
  valueQuantity : Option DoseQty
  valueString : Option (List Char)
  valueCodeableConcept : Option CodeableConcept
  valueBoolean : Option Bool
  referenceRange : Option (List RefRange)
  status : Option (List Char)
  effectiveDateTime : Option (List Char)
  issued : Option (List Char)
  interpretation : Option (List CodeableConcept)
  deriving DecidableEq

structure ObsView where
  id : Option (List Char)
  code : Option (List Char)
  display : List Char
  category : List Char
  value : Option (List Char)
  unit : Option (List Char)
  referenceRange : Option (List Char)
  status : List Char
  date : Option (List Char)
  interpretation : Option (List Char)
  raw : ObsResource
  deriving DecidableEq

/-- `formatObservationValue`: exactly one of the four value shapes; may be
    `none` when a valueCodeableConcept carries neither display nor text
    (JavaScript `undefined`). -/
def formatObservationValue (obs : ObsResource) : Option (List Char) :=
  match obs.valueQuantity with
  | some q => some ((q.value.map numToStr).getD "undefined".toList)
  | none =>
    match strOpt obs.valueString with
    | some s => some s
    | none =>
      match obs.valueCodeableConcept with
      | some vcc => jsOr ((cc0 (some vcc)).bind (·.display)) vcc.text
      | none =>
        match obs.valueBoolean with
        | some b => some (if b then "Yes".toList else "No".toList)
        | none => some "N/A".toList

/-- The per-entry body of `parseObservations`' map. -/
def parseObservation1 (obs : ObsResource) : ObsView :=
  { id := obs.id
    code := strOpt ((cc0 obs.code).bind (·.code))
    display := jsOrD (jsOr ((cc0 obs.code).bind (·.display)) (obs.code.bind (·.text)))
      "Unknown".toList
    category := jsOrD ((cc0 (obs.category.bind List.head?)).bind (·.display)) "General".toList
    value := formatObservationValue obs
    unit := strOpt (obs.valueQuantity.bind (·.unit))
    referenceRange := strOpt ((obs.referenceRange.bind List.head?).bind (·.text))
    status := jsOrD obs.status "unknown".toList
    date := jsOr obs.effectiveDateTime (jsOr obs.issued none)
    interpretation := strOpt ((cc0 (obs.interpretation.bind List.head?)).bind (·.display))
    raw := obs }

/-- Sort key of a parsed observation: its effective date. -/
def obsKey (v : ObsView) : Option Int := dateKey v.date

/-- `parseObservations` from the FHIR parser. -/
def parseObservations : JArg ObsResource → List ObsView
  | .nonArray => []
  | .arr observations =>
    jsSortDesc obsKey
      ((observations.filter (fun o => o.resourceType == "Observation".toList)).map
        parseObservation1)

/-! ### Patient -/

structure HumanName where
  given : Option (List (List Char))
  family : Option (List Char)
  deriving DecidableEq

structure ContactPoint where
  system : Option (List Char)
  value : Option (List Char)
  deriving DecidableEq

structure IdentType where
  coding : Option (List Coding)
  text : Option (List Char)
  deriving DecidableEq

structure Identifier where
  type : Option IdentType
  system : Option (List Char)
  value : Option (List Char)
  deriving DecidableEq

structure AddressE where
  line : Option (List (List Char))
  city : Option (List Char)
  state : Option (List Char)
  postalCode : Option (List Char)
  deriving DecidableEq

structure PatientResource where
  resourceType : List Char
  id : Option (List Char)
  name : Option (List HumanName)
  gender : Option (List Char)
  birthDate : Option (List Char)
  telecom : Option (List ContactPoint)
  identifier : Option (List Identifier)
  address : Option (List AddressE)
  deriving DecidableEq

structure PatientView where
  id : Option (List Char)
  name : List Char
  firstName : List Char
  lastName : List Char
  gender : List Char
  birthDate : Option (List Char)
  age : Option Int
  mrn : Option (List Char)
  phone : Option (List Char)
  email : Option (List Char)
  address : Option (List Char)
  raw : PatientResource
  deriving DecidableEq

/-- Today's date, for `calculateAge` (`new Date()` at call time). -/
structure DateT where
  y : Int
  mo : Nat
  d : Nat
  deriving DecidableEq

/-- `calculateAge(birthDate)`: year difference, minus one when the birthday
    has not yet been reached this year; NaN (`none`) when the birth date
    does not parse. -/
def calculateAge (birthDate : List Char) (today : DateT) : Option Int :=
  (parseISODate birthDate).map (fun k =>
    let by0 : Int := Int.ofNat (k / 10000)
    let bm : Nat := k / 100 % 100
    let bd : Nat := k % 100
    today.y - by0 - (if today.mo < bm ∨ (today.mo = bm ∧ today.d < bd) then 1 else 0))

/-- `extractMRN(identifiers)`: prefers an identifier typed `MR`, or whose
    type text mentions `mrn`, or whose system mentions `mrn`; falls back to
    the first identifier's value. -/
def extractMRN (identifiers : Option (List Identifier)) : Option (List Char) :=
  match identifiers with
  | none => none
  | some ids =>
    let mrn := ids.find? (fun idr =>
      ((idr.type.bind (·.coding)).getD []).any (fun c => c.code == some "MR".toList) ||
      containsL "mrn".toList (toLowerL ((idr.type.bind (·.text)).getD [])) ||
      containsL "mrn".toList (idr.system.getD []))
    jsOr (mrn.bind (·.value)) (jsOr ((ids.head?).bind (·.value)) none)

/-- `formatAddress(address)`: joins line/city/state/postalCode, filtering
    falsy parts; null when everything is empty. -/
def formatAddress (address : Option AddressE) : Option (List Char) :=
  match address with
  | none => none
  | some a =>
    let parts := [a.line.map (joinL ", ".toList), a.city, a.state, a.postalCode].filterMap strOpt
    strOpt (some (joinL ", ".toList parts))

/-- `parsePatient` from the FHIR parser: fails (`Invalid Patient resource`)
    exactly on a null input or a wrong `resourceType`. -/
def parsePatient (patient : Option PatientResource) (today : DateT) :
    Except (List Char) PatientView :=
  match patient with
  | none => .error "Invalid Patient resource".toList
  | some p =>
    if p.resourceType ≠ "Patient".toList then .error "Invalid Patient resource".toList
    else
      let name := p.name.bind List.head?
      let firstName := jsOrD ((name.bind (·.given)).map (joinL " ".toList)) []
      let lastName := jsOrD (name.bind (·.family)) []
      .ok
        { id := p.id
          name := trimL (firstName ++ " ".toList ++ lastName)
          firstName := firstName
          lastName := lastName
          gender := jsOrD p.gender "unknown".toList
          birthDate := jsOr p.birthDate none
          age := match strOpt p.birthDate with
            | some bd => calculateAge bd today
            | none => none
          mrn := extractMRN p.identifier
          phone := strOpt ((p.telecom.bind
            (List.find? (fun t => t.system == some "phone".toList))).bind (·.value))
          email := strOpt ((p.telecom.bind
            (List.find? (fun t => t.system == some "email".toList))).bind (·.value))
          address := formatAddress (p.address.bind List.head?)
          raw := p }

/-- Descending-order relation between sort keys (NaN keys defaulted to 0;
    the sortedness statements assume every key parses). -/
def keyGe {α : Type} (key : α → Option Int) (a b : α) : Prop :=
  (key a).getD 0 ≥ (key b).getD 0

/-- A Condition entry whose onset date does not parse. -/
def cexCondA : CondResource :=
  { resourceType := "Condition".toList, id := some "cex-a".toList, code := none,
    clinicalStatus := none, verificationStatus := none, category := none, severity := none,
    onsetDateTime := some "not-a-date".toList, recordedDate := none, note := none }

/-- A Condition entry with a parseable onset date. -/
def cexCondB : CondResource :=
  { resourceType := "Condition".toList, id := some "cex-b".toList, code := none,
    clinicalStatus := none, verificationStatus := none, category := none, severity := none,
    onsetDateTime := some "2020-05-01".toList, recordedDate := none, note := none }

/-- A minimal well-formed Patient resource. -/
def cexPatient : PatientResource :=
  { resourceType := "Patient".toList, id := some "p1".toList, name := none, gender := none,
    birthDate := none, telecom := none, identifier := none, address := none }

/-- A concrete current date (month is 1-based, matching `parseISODate`). -/
def cexToday : DateT := { y := 2026, mo := 10, d := 12 }

/-! ## Epic/Plasma integration client (epicClient)

The Supabase store, `fetch` and `sessionStorage` are external collaborators;
each embedded operation takes an environment record carrying the outcomes of
its storage/network calls and reports, besides its result, the number of
token-endpoint/FHIR network calls (`net`) and audit-log inserts (`audits`)
it performed.  The ISO timestamp string stored in `expires_at` is modelled
as the epoch-millisecond value it denotes (`toISOString`/`new Date` are
mutually inverse on it). -/

/-- The designated demo principal. -/
def demoEmail : List Char := "demo.doctor@amma.health".toList

/-- `logAuditEvent(event)`: the `epic_audit_log` insert runs inside
    try/catch; a failure is logged to the console and deliberately not
    re-thrown. -/
def logAuditEvent (insertOutcome : Except (List Char) Unit) : Except (List Char) Unit :=
  match insertOutcome with
  | .ok _ => .ok ()
  | .error _ => .ok ()

/-- A row of the `epic_tokens` table. -/
structure TokenRow where
  access_token : List Char
  refresh_token : Option (List Char)
  expires_at : Int

/-- Failures of the token supplier. -/
inductive TokErr where
  | notConnected
  | noRefreshToken
  | decryptFailed (m : List Char)
  | refreshFailed
  | cryptoFailed (m : List Char)
  | storeFailed
  | auditFailed (m : List Char)

/-- Environment of a (potential) token refresh: the configured encryption
    key, the token-endpoint outcome, the store-update outcome, the clock,
    and the nonces drawn by `encrypt`. -/
structure RefreshEnv where
  key : Option (List Char)
  tokenOk : Bool
  newAccessToken : List Char
  newRefreshToken : Option (List Char)
  expires_in : Int
  updateError : Option (List Char)
  auditOutcome : Except (List Char) Unit
  nowMs : Int
  iv1 : List Nat
  iv2 : List Nat

/-- Result of the token supplier with its side-effect counts. -/
structure TokOut where
  result : Except TokErr (List Char)
  net : Nat
  audits : Nat

/-- A `decrypt` outcome lifted into the token-supplier error type. -/
def decryptResult (blob : List Char) (key : Option (List Char)) : Except TokErr (List Char) :=
  match decrypt blob key with
  | .ok t => .ok t
  | .error m => .error (.decryptFailed m)

/-- `refreshEpicToken(doctorEmail, encryptedRefreshToken)`. -/
def refreshEpicToken (encryptedRefreshToken : Option (List Char)) (env : RefreshEnv) : TokOut :=
  match encryptedRefreshToken with
  | none => ⟨.error .noRefreshToken, 0, 0⟩
  | some erft =>
    match decrypt erft env.key with
    | .error m => ⟨.error (.decryptFailed m), 0, 0⟩
    | .ok _refreshToken =>
      -- POST tokenUrl, grant_type=refresh_token: one network call
      if !env.tokenOk then ⟨.error .refreshFailed, 1, 0⟩
      else
        match encrypt env.newAccessToken env.key env.iv1 with
        | .error m => ⟨.error (.cryptoFailed m), 1, 0⟩
        | .ok encryptedAccessToken =>
          match (match env.newRefreshToken with
                 | some rt => (encrypt rt env.key env.iv2).map some
                 | none => Except.ok (some erft)) with
          | .error m => ⟨.error (.cryptoFailed m), 1, 0⟩
          | .ok _newEncryptedRefreshToken =>
            match env.updateError with
            | some _ => ⟨.error .storeFailed, 1, 0⟩
            | none =>
              match logAuditEvent env.auditOutcome with
              | .error m => ⟨.error (.auditFailed m), 1, 1⟩
              | .ok _ => ⟨decryptResult encryptedAccessToken env.key, 1, 1⟩

/-- `getEpicToken(doctorEmail)`: loads the credential row, refreshes when
    `now >= expires_at`, otherwise decrypts and returns the stored access
    token with no network call. -/
def getEpicToken (row : Option TokenRow) (env : RefreshEnv) : TokOut :=
  match row with
  | none => ⟨.error .notConnected, 0, 0⟩
  | some data =>
    if env.nowMs ≥ data.expires_at then refreshEpicToken data.refresh_token env
    else ⟨decryptResult data.access_token env.key, 0, 0⟩

/-- Failures of the OAuth callback handler. -/
inductive CbErr where
  | csrf
  | noEmail
  | exchangeFailed (body : List Char)
  | cryptoFailed (m : List Char)
  | storeFailed (m : List Char)
  | auditFailed (m : List Char)

/-- Environment of `handleEpicCallback`: the sessionStorage contents, the
    token-endpoint outcome, the store-upsert outcome, the key, the clock,
    and the `encrypt` nonces. -/
structure CallbackEnv where
  sessionState : Option (List Char)
  sessionEmail : Option (List Char)
  tokenOk : Bool
  tokenErrBody : List Char
  newAccessToken : List Char
  newRefreshToken : Option (List Char)
  expires_in : Int
  upsertError : Option (List Char)
  auditOutcome : Except (List Char) Unit
  key : Option (List Char)
  nowMs : Int
  iv1 : List Nat
  iv2 : List Nat

/-- `handleEpicCallback(code, state)`: the CSRF state comparison runs before
    anything else; the pair's second component counts token-endpoint calls. -/
def handleEpicCallback (code : List Char) (st : Option (List Char)) (env : CallbackEnv) :
    Except CbErr (List Char) × Nat :=
  if st ≠ env.sessionState then (.error .csrf, 0)
  else
    match env.sessionEmail with
    | none => (.error .noEmail, 0)
    | some doctorEmail =>
      if doctorEmail = [] then (.error .noEmail, 0)
      else if !env.tokenOk then (.error (.exchangeFailed env.tokenErrBody), 1)
      else
        match encrypt env.newAccessToken env.key env.iv1 with
        | .error m => (.error (.cryptoFailed m), 1)
        | .ok _encryptedAccessToken =>
          match (match env.newRefreshToken with
                 | some rt => (encrypt rt env.key env.iv2).map some
                 | none => Except.ok none) with
          | .error m => (.error (.cryptoFailed m), 1)
          | .ok _encryptedRefreshToken =>
            match env.upsertError with
            | some m => (.error (.storeFailed m), 1)
            | none =>
              match logAuditEvent env.auditOutcome with
              | .error m => (.error (.auditFailed m), 1)
              | .ok _ => (.ok doctorEmail, 1)

/-! ### Demo fixtures -/

/-- A demo fixture patient (`getDemoPatients` entry). -/
structure DemoPatient where
  id : List Char
  name : List Char
  firstName : List Char
  lastName : List Char
  gender : List Char
  birthDate : List Char
  age : Int
  mrn : List Char
  phone : List Char
  email : List Char
  address : List Char
  deriving DecidableEq

/-- A demo fixture condition entry. -/
structure DemoCond where
  id : List Char
  display : List Char
  clinicalStatus : List Char
  onsetDate : List Char
  category : List Char
  severity : List Char
  deriving DecidableEq

/-- A demo fixture medication entry. -/
structure DemoMed where
  id : List Char
  name : List Char
  status : List Char
  dosage : List Char
  frequency : List Char
  route : List Char
  prescribedDate : List Char
  instructions : List Char
  deriving DecidableEq

/-- A demo fixture document entry. -/
structure DemoDoc where
  id : List Char
  type : List Char
  date : List Char
  author : List Char
  description : List Char
  deriving DecidableEq

/-- A demo fixture observation entry. -/
structure DemoObs where
  id : List Char
  display : List Char
  value : List Char
  unit : List Char
  date : List Char
  status : List Char
  interpretation : List Char
  deriving DecidableEq

/-- A demo fixture bundle (`getDemoPatientData` entry). -/
structure DemoBundle where
  patient : DemoPatient
  conditions : List DemoCond
  medications : List DemoMed
  documents : List DemoDoc
  observations : List DemoObs
  clinical_notes : List Char
  deriving DecidableEq

/-- Demo fixture patient 1 (`getDemoPatients()[0]`). -/
def demoPat1 (cy : Int) : DemoPatient :=
  { id := "demo-patient-1".toList
    name := "Anish Polakala".toList
    firstName := "Anish".toList
    lastName := "Polakala".toList
    gender := "male".toList
    birthDate := "1992-08-15".toList
    age := cy - 1992
    mrn := "MRN001234".toList
    phone := "555-0100".toList
    email := "anish.polakala@example.com".toList
    address := "123 Commonwealth Ave, Boston, MA 02116".toList }

/-- Demo fixture patient 2 (`getDemoPatients()[1]`). -/
def demoPat2 (cy : Int) : DemoPatient :=
  { id := "demo-patient-2".toList
    name := "Keisha Washington".toList
    firstName := "Keisha".toList
    lastName := "Washington".toList
    gender := "female".toList
    birthDate := "1985-03-22".toList
    age := cy - 1985
    mrn := "MRN005678".toList
    phone := "555-0101".toList
    email := "keisha.washington@example.com".toList
    address := "456 Blue Hill Ave, Boston, MA 02121".toList }

/-- Demo fixture patient 3 (`getDemoPatients()[2]`). -/
def demoPat3 (cy : Int) : DemoPatient :=
  { id := "demo-patient-3".toList
    name := "Mei Lin Zhang".toList
    firstName := "Mei Lin".toList
    lastName := "Zhang".toList
    gender := "female".toList
    birthDate := "1990-11-08".toList
    age := cy - 1990
    mrn := "MRN009876".toList
    phone := "555-0102".toList
    email := "meilin.zhang@example.com".toList
    address := "789 Beach St, Boston, MA 02111".toList }

/-- Demo fixture patient 4 (`getDemoPatients()[3]`). -/
def demoPat4 (cy : Int) : DemoPatient :=
  { id := "demo-patient-4".toList
    name := "Jamal Thompson".toList
    firstName := "Jamal".toList
    lastName := "Thompson".toList
    gender := "male".toList
    birthDate := "1978-06-14".toList
    age := cy - 1978
    mrn := "MRN004321".toList
    phone := "555-0103".toList
    email := "jamal.thompson@example.com".toList
    address := "321 Warren St, Boston, MA 02119".toList }

/-- Demo fixture patient 5 (`getDemoPatients()[4]`). -/
def demoPat5 (cy : Int) : DemoPatient :=
  { id := "demo-patient-5".toList
    name := "Priya Sharma".toList
    firstName := "Priya".toList
    lastName := "Sharma".toList
    gender := "female".toList
    birthDate := "1988-12-19".toList
    age := cy - 1988
    mrn := "MRN007654".toList
    phone := "555-0104".toList
    email := "priya.sharma@example.com".toList
    address := "567 Cambridge St, Boston, MA 02114".toList }

/-- `getDemoPatients()`: the five demo fixture patients (ages computed from
    the current year `cy`). -/
def getDemoPatients (cy : Int) : List DemoPatient :=
  [demoPat1 cy, demoPat2 cy, demoPat3 cy, demoPat4 cy, demoPat5 cy]

/-- Demo fixture bundle for demo-patient-1. -/
def demoBundle1 (cy : Int) : DemoBundle :=
  { patient := demoPat1 cy,
    conditions := [
      { id := "cond-1".toList, display := "Glioblastoma Multiforme, Right Frontal Lobe (C71.1)".toList, clinicalStatus := "active".toList, onsetDate := "2024-08-15".toList, category := "Neoplasm/Oncology".toList, severity := "Grade IV (WHO), High-grade malignant glioma".toList },
      { id := "cond-2".toList, display := "Cerebral Edema Secondary to Intracranial Mass (G93.6)".toList, clinicalStatus := "active".toList, onsetDate := "2024-08-15".toList, category := "Neurological".toList, severity := "Moderate, controlled with steroids".toList },
      { id := "cond-3".toList, display := "Seizure Disorder Secondary to Brain Tumor (G40.909)".toList, clinicalStatus := "active".toList, onsetDate := "2024-08-20".toList, category := "Neurological".toList, severity := "Controlled on anticonvulsants".toList }],
    medications := [
      { id := "med-1".toList, name := "Temozolomide".toList, status := "active".toList, dosage := "150mg/m² (280mg)".toList, frequency := "Once daily for 5 consecutive days every 28 days".toList, route := "Oral".toList, prescribedDate := "2024-10-01".toList, instructions := "Chemotherapy agent. Take on empty stomach at bedtime. Concurrent with radiation therapy. Monitor CBC weekly. Anti-nausea medications prescribed as needed.".toList },
      { id := "med-2".toList, name := "Dexamethasone".toList, status := "active".toList, dosage := "4mg".toList, frequency := "Twice daily (morning & evening)".toList, route := "Oral".toList, prescribedDate := "2024-08-20".toList, instructions := "Corticosteroid to reduce cerebral edema. Take with food to prevent GI upset. Do not abruptly discontinue. Monitor blood glucose. Taper as directed by oncology team.".toList },
      { id := "med-3".toList, name := "Levetiracetam (Keppra)".toList, status := "active".toList, dosage := "1000mg".toList, frequency := "Twice daily".toList, route := "Oral".toList, prescribedDate := "2024-08-22".toList, instructions := "Anticonvulsant for seizure prophylaxis. May cause drowsiness - avoid driving until response known. Report mood changes, behavioral changes, or suicidal thoughts immediately.".toList },
      { id := "med-4".toList, name := "Ondansetron (Zofran)".toList, status := "active".toList, dosage := "8mg".toList, frequency := "Every 8 hours as needed for nausea".toList, route := "Oral".toList, prescribedDate := "2024-10-01".toList, instructions := "Anti-nausea medication. Can be taken 30 minutes before meals if anticipating nausea from chemotherapy.".toList }],
    documents := [
      { id := "doc-1".toList, type := "Oncology Progress Note".toList, date := "2024-11-18".toList, author := "Dr. Michael Rivera, MD - Neuro-Oncology".toList, description := "Post-operative follow-up. Patient tolerating chemoradiation protocol. Reviewing MRI findings.".toList },
      { id := "doc-2".toList, type := "MRI Brain with Contrast".toList, date := "2024-11-12".toList, author := "Dr. Patricia Lee, MD - Neuroradiology".toList, description := "Post-surgical baseline MRI showing expected post-operative changes. Residual enhancement in right frontal lobe. No new masses identified.".toList },
      { id := "doc-3".toList, type := "Pathology Report".toList, date := "2024-08-18".toList, author := "Dr. James Wu, MD - Neuropathology".toList, description := "Surgical specimen analysis confirms Glioblastoma Multiforme (WHO Grade IV). IDH-wildtype. MGMT promoter methylation status: Methylated (favorable prognostic indicator).".toList }],
    observations := [
      { id := "obs-1".toList, display := "Karnofsky Performance Status".toList, value := "80".toList, unit := "score (0-100)".toList, date := "2024-11-18".toList, status := "final".toList, interpretation := "Good functional status - able to carry on normal activity with effort".toList },
      { id := "obs-2".toList, display := "White Blood Cell Count".toList, value := "4.2".toList, unit := "K/uL".toList, date := "2024-11-16".toList, status := "final".toList, interpretation := "Within normal range - adequate for chemotherapy continuation".toList },
      { id := "obs-3".toList, display := "Absolute Neutrophil Count (ANC)".toList, value := "2.8".toList, unit := "K/uL".toList, date := "2024-11-16".toList, status := "final".toList, interpretation := "Adequate - no evidence of neutropenia".toList },
      { id := "obs-4".toList, display := "Platelet Count".toList, value := "195".toList, unit := "K/uL".toList, date := "2024-11-16".toList, status := "final".toList, interpretation := "Normal - no bleeding risk".toList }],
    clinical_notes :=
      ("PATIENT: Anish Polakala (MRN: MRN001234)\n" ++
      "DATE OF VISIT: November 18, 2024\n" ++
      "PROVIDER: Dr. Michael Rivera, MD - Neuro-Oncology\n" ++
      "VISIT TYPE: Post-Operative Follow-Up - Glioblastoma Multiforme Management\n" ++
      "\n" ++
      "CHIEF COMPLAINT:\n" ++
      "Post-operative follow-up for newly diagnosed Glioblastoma Multiforme, right frontal lobe. Currently receiving concurrent chemoradiation therapy.\n" ++
      "\n" ++
      "HISTORY OF PRESENT ILLNESS:\n" ++
      "32-year-old male with recent diagnosis of Glioblastoma Multiforme (WHO Grade IV) of the right frontal lobe. Patient initially presented to emergency department on August 10, 2024 with new-onset seizure activity and progressive headaches over 2-week period. CT head revealed 4.2cm heterogeneous mass in right frontal lobe with significant surrounding edema and mild midline shift. MRI with contrast confirmed enhancing mass with central necrosis, concerning for high-grade glioma.\n" ++
      "\n" ++
      "Patient underwent right frontal craniotomy with maximal safe resection on August 16, 2024 performed by Dr. Katherine Nguyen (Neurosurgery). Pathology confirmed Glioblastoma Multiforme, IDH-wildtype, with MGMT promoter methylation (favorable prognostic marker). Post-operative course complicated by transient left-sided weakness (resolved with PT) and one breakthrough seizure on post-op day 3.\n" ++
      "\n" ++
      "Patient initiated Stupp Protocol on October 1, 2024: concurrent radiation therapy (60 Gy in 30 fractions) with daily temozolomide 75mg/m², followed by adjuvant temozolomide 150-200mg/m² days 1-5 of 28-day cycles. Currently in Cycle 1, Day 18 of adjuvant phase. Radiation therapy completed November 10, 2024.\n" ++
      "\n" ++
      "CURRENT MEDICATIONS:\n" ++
      "1. Temozolomide 280mg (150mg/m²) PO daily × 5 days every 28 days - chemotherapy\n" ++
      "2. Dexamethasone 4mg PO BID - cerebral edema control\n" ++
      "3. Levetiracetam (Keppra) 1000mg PO BID - seizure prophylaxis\n" ++
      "4. Ondansetron 8mg PO Q8H PRN nausea\n" ++
      "5. Pantoprazole 40mg PO daily - GI protection while on steroids\n" ++
      "\n" ++
      "ALLERGIES: No Known Drug Allergies (NKDA)\n" ++
      "\n" ++
      "REVIEW OF SYSTEMS:\n" ++
      "Constitutional: Reports fatigue (expected from treatment), no fever. Weight stable at 165 lbs.\n" ++
      "Neurological: No recurrent seizure activity since August. Mild persistent headaches controlled with acetaminophen. No new focal neurological deficits. Intact motor function bilaterally. Denies vision changes, ataxia, or vertigo.\n" ++
      "Gastrointestinal: Mild nausea days 1-3 of chemotherapy cycle, well-controlled with ondansetron. Appetite fair. No vomiting or diarrhea.\n" ++
      "Psychiatric: Mood stable but understandably anxious about diagnosis. Engaged with social work and support groups. No depression screening concerns.\n" ++
      "Dermatologic: Mild facial puffiness from steroid use. Radiation dermatitis resolved.\n" ++
      "\n" ++
      "PHYSICAL EXAMINATION:\n" ++
      "Vitals: BP 118/76, HR 68, RR 14, Temp 98.4°F, Weight 165 lbs, O2 Sat 98% on room air\n" ++
      "General: Alert, oriented x3, appears stated age, mild cushingoid features from steroid therapy\n" ++
      "HEENT: Normocephalic. Well-healed right frontal craniotomy scar. No erythema or drainage at surgical site.\n" ++
      "Neurological Examination:\n" ++
      "  - Mental Status: Alert, fully oriented, appropriate affect, fluent speech\n" ++
      "  - Cranial Nerves II-XII: Intact bilaterally\n" ++
      "  - Motor: 5/5 strength all extremities, no pronator drift\n" ++
      "  - Sensory: Intact to light touch and pinprick throughout\n" ++
      "  - Reflexes: 2+ and symmetric, downgoing Babinski bilaterally\n" ++
      "  - Coordination: Finger-to-nose intact, no dysmetria\n" ++
      "  - Gait: Normal, steady, no ataxia\n" ++
      "Cardiovascular: Regular rate and rhythm, no murmurs\n" ++
      "Respiratory: Clear to auscultation bilaterally\n" ++
      "Abdomen: Soft, non-tender, non-distended\n" ++
      "Extremities: No cyanosis, clubbing, or edema\n" ++
      "\n" ++
      "RECENT IMAGING - MRI Brain with Contrast (11/12/2024):\n" ++
      "FINDINGS:\n" ++
      "- Status post right frontal craniotomy with expected post-operative changes\n" ++
      "- Minimal residual enhancement along resection cavity margins (stable from prior)\n" ++
      "- Decreased surrounding FLAIR signal compared to immediate post-operative study\n" ++
      "- No new enhancing lesions or masses identified\n" ++
      "- No hydrocephalus or significant mass effect\n" ++
      "- Ventricles and sulci normal in size and configuration\n" ++
      "IMPRESSION: Expected post-surgical changes without evidence of tumor progression. Decreased vasogenic edema compared to prior study.\n" ++
      "\n" ++
      "LABORATORY RESULTS (11/16/2024):\n" ++
      "Complete Blood Count:\n" ++
      "- WBC: 4.2 K/uL (reference: 4.5-11.0) - mild leukopenia acceptable\n" ++
      "- Hemoglobin: 13.2 g/dL (reference: 13.5-17.5)\n" ++
      "- Platelets: 195 K/uL (reference: 150-400)\n" ++
      "- ANC: 2.8 K/uL (adequate for chemotherapy continuation)\n" ++
      "\n" ++
      "Comprehensive Metabolic Panel:\n" ++
      "- Sodium: 139 mEq/L, Potassium: 4.1 mEq/L, Chloride: 102 mEq/L\n" ++
      "- BUN: 14 mg/dL, Creatinine: 0.9 mg/dL\n" ++
      "- Glucose: 126 mg/dL (elevated due to steroid therapy - monitoring)\n" ++
      "- ALT: 32 U/L, AST: 28 U/L - normal liver function\n" ++
      "- Total Bilirubin: 0.6 mg/dL\n" ++
      "\n" ++
      "ASSESSMENT AND PLAN:\n" ++
      "\n" ++
      "PRIMARY DIAGNOSIS: GLIOBLASTOMA MULTIFORME (WHO GRADE IV), RIGHT FRONTAL LOBE\n" ++
      "Status: Post-operative, currently receiving adjuvant chemotherapy (Cycle 1 of planned 6 cycles)\n" ++
      "\n" ++
      "1. ONCOLOGIC MANAGEMENT\n" ++
      "   • Patient tolerating Stupp Protocol reasonably well\n" ++
      "   • Baseline post-radiation MRI shows stable disease, no progression\n" ++
      "   • Continue temozolomide 280mg days 1-5 of 28-day cycle\n" ++
      "   • MGMT methylation positive - favorable for temozolomide response\n" ++
      "   • Karnofsky Performance Status: 80 (good functional status)\n" ++
      "   • Plan: Continue current chemotherapy protocol for total of 6 cycles\n" ++
      "   • Next MRI brain with contrast in 8 weeks (late January 2025)\n" ++
      "   • Consider clinical trial enrollment if disease progression\n" ++
      "\n" ++
      "2. CEREBRAL EDEMA - CONTROLLED\n" ++
      "   • Dexamethasone 4mg BID effectively controlling symptoms\n" ++
      "   • Begin steroid taper next week: reduce to 3mg BID × 1 week, then 2mg BID\n" ++
      "   • Monitor for steroid-related complications (hyperglycemia, immunosuppression)\n" ++
      "   • Continue PPI for GI protection\n" ++
      "\n" ++
      "3. SEIZURE DISORDER SECONDARY TO BRAIN TUMOR - CONTROLLED\n" ++
      "   • No seizure activity since initial presentation\n" ++
      "   • Continue levetiracetam 1000mg BID\n" ++
      "   • Maintain seizure precautions\n" ++
      "   • State driving restrictions apply per neurology recommendations\n" ++
      "   • Therapeutic drug monitoring not indicated at this time\n" ++
      "\n" ++
      "4. SUPPORTIVE CARE\n" ++
      "   • Nausea well-controlled with ondansetron\n" ++
      "   • Encourage adequate hydration and nutrition\n" ++
      "   • Fatigue expected from treatment - recommend energy conservation strategies\n" ++
      "   • Continue physical therapy for conditioning\n" ++
      "   • Social work engaged, support group recommended\n" ++
      "\n" ++
      "5. MONITORING\n" ++
      "   • CBC with differential weekly during chemotherapy weeks\n" ++
      "   • CMP monthly to monitor glucose (steroid-induced hyperglycemia)\n" ++
      "   • Pneumocystis jirovecii prophylaxis with TMP-SMX to be initiated given prolonged steroid use\n" ++
      "\n" ++
      "PATIENT EDUCATION:\n" ++
      "- Discussed MRI findings: stable post-operative changes, no evidence of tumor growth\n" ++
      "- Reviewed expected chemotherapy side effects and when to call\n" ++
      "- Emphasized importance of medication compliance, especially anti-seizure medication\n" ++
      "- Driving restrictions discussed per state law (seizure within 6 months)\n" ++
      "- Emergency contact information provided for fever, severe headache, new neurological symptoms, or uncontrolled nausea/vomiting\n" ++
      "- Patient and family demonstrate good understanding of treatment plan\n" ++
      "- Resources provided: American Brain Tumor Association, support groups\n" ++
      "\n" ++
      "PROGNOSIS DISCUSSION:\n" ++
      "Long discussion with patient and family regarding prognosis and treatment goals. Median survival for GBM with standard therapy is 15-18 months, but MGMT methylation status provides favorable prognostic indicator. Patient expresses realistic understanding and strong determination to pursue aggressive treatment. Emphasis on quality of life throughout treatment course. Palliative care consultation offered for symptom management - patient declines at this time but aware of availability.\n" ++
      "\n" ++
      "FOLLOW-UP:\n" ++
      "- Return to Neuro-Oncology clinic in 2 weeks (Cycle 2, Day 1 of chemotherapy)\n" ++
      "- CBC with diff prior to next chemotherapy cycle\n" ++
      "- MRI brain with contrast in 8 weeks\n" ++
      "- Call immediately for fever > 100.4°F, severe headache, seizure, new weakness, or concerning symptoms\n" ++
      "- Continue current medication regimen with planned steroid taper\n" ++
      "\n" ++
      "ELECTRONICALLY SIGNED:\n" ++
      "Dr. Michael Rivera, MD, FACP\n" ++
      "Board Certified Medical Oncology & Neuro-Oncology\n" ++
      "Massachusetts General Hospital Cancer Center\n" ++
      "November 18, 2024 16:45 EST").toList }

/-- Demo fixture bundle for demo-patient-2. -/
def demoBundle2 (cy : Int) : DemoBundle :=
  { patient := demoPat2 cy,
    conditions := [
      { id := "cond-4".toList, display := "Mild Persistent Asthma (J45.30)".toList, clinicalStatus := "active".toList, onsetDate := "2010-03-15".toList, category := "Respiratory".toList, severity := "Mild-Moderate".toList },
      { id := "cond-5".toList, display := "Seasonal Allergic Rhinitis (J30.2)".toList, clinicalStatus := "active".toList, onsetDate := "2010-03-15".toList, category := "Allergic/Immunologic".toList, severity := "Mild".toList }],
    medications := [
      { id := "med-4".toList, name := "Albuterol Sulfate HFA Inhaler".toList, status := "active".toList, dosage := "90mcg (2 puffs)".toList, frequency := "Every 4-6 hours as needed".toList, route := "Oral Inhalation".toList, prescribedDate := "2024-06-20".toList, instructions := "Rescue inhaler for acute bronchospasm. Use 15 minutes before exercise. Seek emergency care if using more than 2x/week.".toList },
      { id := "med-5".toList, name := "Fluticasone Propionate HFA".toList, status := "active".toList, dosage := "110mcg (2 puffs)".toList, frequency := "Twice daily (morning & evening)".toList, route := "Oral Inhalation".toList, prescribedDate := "2024-06-20".toList, instructions := "Controller medication - use daily even when feeling well. Rinse mouth after use to prevent thrush.".toList },
      { id := "med-6".toList, name := "Montelukast Sodium".toList, status := "active".toList, dosage := "10mg".toList, frequency := "Once daily at bedtime".toList, route := "Oral".toList, prescribedDate := "2024-08-15".toList, instructions := "Leukotriene receptor antagonist for asthma control. Report mood changes.".toList }],
    documents := [
      { id := "doc-4".toList, type := "Pulmonology Follow-Up".toList, date := "2024-11-10".toList, author := "Dr. Michael Rodriguez, MD".toList, description := "Asthma control assessment and spirometry results review.".toList },
      { id := "doc-5".toList, type := "Spirometry Report".toList, date := "2024-11-10".toList, author := "Pulmonary Function Lab".toList, description := "PFTs show mild obstruction, responsive to bronchodilator.".toList },
      { id := "doc-6".toList, type := "Asthma Action Plan".toList, date := "2024-11-10".toList, author := "Dr. Michael Rodriguez, MD".toList, description := "Updated action plan with green/yellow/red zone instructions.".toList }],
    observations := [
      { id := "obs-5".toList, display := "FEV1 (Forced Expiratory Volume)".toList, value := "82".toList, unit := "% predicted".toList, date := "2024-11-10".toList, status := "final".toList, interpretation := "Mild obstruction, improved post-bronchodilator".toList },
      { id := "obs-6".toList, display := "Peak Flow".toList, value := "420".toList, unit := "L/min".toList, date := "2024-11-10".toList, status := "final".toList, interpretation := "Personal best: 450 L/min - In green zone".toList },
      { id := "obs-7".toList, display := "Oxygen Saturation".toList, value := "98".toList, unit := "%".toList, date := "2024-11-10".toList, status := "final".toList, interpretation := "Normal".toList }],
    clinical_notes :=
      ("PATIENT: Jane Doe (MRN: MRN005678)\n" ++
      "DATE OF VISIT: November 10, 2024\n" ++
      "PROVIDER: Dr. Michael Rodriguez, MD - Pulmonology\n" ++
      "VISIT TYPE: Asthma Control Assessment & Spirometry\n" ++
      "\n" ++
      "CHIEF COMPLAINT:\n" ++
      "Follow-up for asthma management and seasonal allergy symptoms.\n" ++
      "\n" ++
      "HISTORY OF PRESENT ILLNESS:\n" ++
      "35-year-old female with mild persistent asthma (diagnosed 2010) presents for scheduled follow-up. Patient reports good overall asthma control on current regimen. Uses rescue inhaler approximately 1-2 times per week, primarily with exercise or during high pollen days. No nighttime awakenings in past month. No emergency department visits or oral steroid courses in past year. Patient compliant with controller medications. Reports seasonal rhinitis symptoms improving with addition of montelukast.\n" ++
      "\n" ++
      "CURRENT MEDICATIONS:\n" ++
      "1. Fluticasone Propionate 110mcg - 2 puffs BID (controller)\n" ++
      "2. Albuterol Sulfate 90mcg - 2 puffs Q4-6H PRN (rescue)\n" ++
      "3. Montelukast 10mg PO daily at bedtime\n" ++
      "\n" ++
      "ALLERGIES: Penicillin (rash)\n" ++
      "\n" ++
      "ASTHMA CONTROL QUESTIONNAIRE (ACQ) SCORE: 0.8 (Well controlled: < 1.5)\n" ++
      "\n" ++
      "REVIEW OF SYSTEMS:\n" ++
      "Respiratory: Occasional mild dyspnea with exertion. No chest tightness at rest.\n" ++
      "ENT: Seasonal rhinorrhea and sneezing, improved with montelukast.\n" ++
      "All other systems reviewed and negative.\n" ++
      "\n" ++
      "PHYSICAL EXAMINATION:\n" ++
      "Vitals: BP 118/76, HR 68, RR 14, SpO2 98% on room air, Temp 98.2°F\n" ++
      "General: Alert, comfortable, speaking in full sentences\n" ++
      "HEENT: Nasal mucosa slightly pale and boggy, consistent with allergic rhinitis\n" ++
      "Neck: No lymphadenopathy, no stridor\n" ++
      "Cardiovascular: Regular rate and rhythm, no murmurs\n" ++
      "Respiratory: Good air entry bilaterally, no wheezes, crackles, or rhonchi\n" ++
      "  - No accessory muscle use\n" ++
      "  - No prolonged expiratory phase\n" ++
      "Skin: No eczema or urticaria\n" ++
      "\n" ++
      "SPIROMETRY RESULTS (11/10/2024):\n" ++
      "Pre-bronchodilator:\n" ++
      "- FEV1: 2.45 L (82% predicted)\n" ++
      "- FVC: 3.18 L (91% predicted)\n" ++
      "- FEV1/FVC ratio: 77%\n" ++
      "\n" ++
      "Post-bronchodilator (after 4 puffs albuterol):\n" ++
      "- FEV1: 2.78 L (93% predicted) - 13% improvement\n" ++
      "- FVC: 3.25 L (93% predicted)\n" ++
      "- Interpretation: Mild obstructive pattern with significant bronchodilator response\n" ++
      "\n" ++
      "PEAK FLOW MONITORING:\n" ++
      "- Current: 420 L/min\n" ++
      "- Personal Best: 450 L/min\n" ++
      "- Green Zone: > 360 L/min (80% of personal best)\n" ++
      "- Yellow Zone: 270-360 L/min (50-80%)\n" ++
      "- Red Zone: < 270 L/min (< 50%)\n" ++
      "\n" ++
      "ASSESSMENT AND PLAN:\n" ++
      "\n" ++
      "1. MILD PERSISTENT ASTHMA - WELL CONTROLLED\n" ++
      "   • ACQ score 0.8 indicates good control\n" ++
      "   • Spirometry shows mild obstruction with bronchodilator response\n" ++
      "   • Continue current three-medication regimen\n" ++
      "   • Fluticasone 110mcg BID - continue as controller\n" ++
      "   • Albuterol PRN - using appropriately (< 2x/week)\n" ++
      "   • Montelukast 10mg QHS - continue for dual benefit (asthma + allergies)\n" ++
      "   • Patient demonstrates excellent inhaler technique\n" ++
      "   • Updated Asthma Action Plan provided and reviewed\n" ++
      "\n" ++
      "2. SEASONAL ALLERGIC RHINITIS - CONTROLLED\n" ++
      "   • Symptoms improved with montelukast\n" ++
      "   • May add intranasal corticosteroid if symptoms worsen during peak allergy season\n" ++
      "   • Recommend environmental controls (keep windows closed during high pollen counts)\n" ++
      "\n" ++
      "PATIENT EDUCATION:\n" ++
      "- Reviewed proper inhaler technique with spacer\n" ++
      "- Emphasized importance of daily controller medication (fluticasone) even when asymptomatic\n" ++
      "- Discussed environmental triggers: pollen, dust, cold air, exercise\n" ++
      "- When to escalate care: use of rescue inhaler > 2x/week, nighttime symptoms, decreased peak flow\n" ++
      "- GREEN zone: current medications\n" ++
      "- YELLOW zone: increase fluticasone to 220mcg BID, more frequent albuterol\n" ++
      "- RED zone: seek immediate medical attention\n" ++
      "\n" ++
      "FOLLOW-UP:\n" ++
      "- Return in 6 months or sooner if control worsens\n" ++
      "- Call office if rescue inhaler use increases to > 2x/week\n" ++
      "- Continue home peak flow monitoring weekly\n" ++
      "- Annual flu vaccine recommended (scheduled for next month)\n" ++
      "\n" ++
      "ELECTRONICALLY SIGNED:\n" ++
      "Dr. Michael Rodriguez, MD\n" ++
      "Board Certified Pulmonary Medicine\n" ++
      "November 10, 2024 11:15 PST").toList }

/-- Demo fixture bundle for demo-patient-3. -/
def demoBundle3 (cy : Int) : DemoBundle :=
  { patient := demoPat3 cy,
    conditions := [
      { id := "cond-8".toList, display := "Generalized Anxiety Disorder (F41.1)".toList, clinicalStatus := "active".toList, onsetDate := "2020-07-05".toList, category := "Mental Health".toList, severity := "Moderate, improving".toList },
      { id := "cond-9".toList, display := "Insomnia Disorder (G47.00)".toList, clinicalStatus := "active".toList, onsetDate := "2020-08-12".toList, category := "Sleep Disorder".toList, severity := "Mild".toList }],
    medications := [
      { id := "med-7".toList, name := "Sertraline HCl".toList, status := "active".toList, dosage := "75mg".toList, frequency := "Once daily in morning".toList, route := "Oral".toList, prescribedDate := "2023-09-01".toList, instructions := "SSRI for anxiety. Take with food. May cause initial nausea - usually resolves. Report increased anxiety or mood changes.".toList },
      { id := "med-8".toList, name := "Hydroxyzine Pamoate".toList, status := "active".toList, dosage := "25mg".toList, frequency := "At bedtime as needed".toList, route := "Oral".toList, prescribedDate := "2024-02-10".toList, instructions := "For sleep and anxiety. May cause drowsiness - do not drive after taking. Maximum 3x per week.".toList }],
    documents := [
      { id := "doc-7".toList, type := "Psychiatric Follow-Up".toList, date := "2024-10-20".toList, author := "Dr. Lisa Patel, MD".toList, description := "Patient reports 50% reduction in anxiety symptoms with current regimen.".toList },
      { id := "doc-8".toList, type := "Therapy Progress Note".toList, date := "2024-10-15".toList, author := "Amanda Chen, LCSW".toList, description := "CBT session #12. Patient demonstrating improved coping strategies.".toList }],
    observations := [
      { id := "obs-8".toList, display := "GAD-7 Score (Anxiety Assessment)".toList, value := "8".toList, unit := "score".toList, date := "2024-10-20".toList, status := "final".toList, interpretation := "Mild anxiety (score 5-9). Previously 15 (moderate). Significant improvement.".toList },
      { id := "obs-9".toList, display := "PHQ-9 Score (Depression Screening)".toList, value := "4".toList, unit := "score".toList, date := "2024-10-20".toList, status := "final".toList, interpretation := "Minimal depression symptoms (score < 5). No concerning findings.".toList }],
    clinical_notes :=
      ("PATIENT: Emily Johnson (MRN: MRN009876)\n" ++
      "DATE OF VISIT: October 20, 2024\n" ++
      "PROVIDER: Dr. Lisa Patel, MD - Psychiatry\n" ++
      "VISIT TYPE: Psychiatric Follow-Up - Anxiety Management\n" ++
      "\n" ++
      "CHIEF COMPLAINT: \"I'm feeling much better but still have some anxiety.\"\n" ++
      "\n" ++
      "HISTORY OF PRESENT ILLNESS:\n" ++
      "28-year-old female with Generalized Anxiety Disorder and insomnia presents for follow-up. Patient started on sertraline 50mg 13 months ago, dose increased to 75mg 6 months ago with good response. Reports approximately 50% reduction in anxiety symptoms compared to initial presentation. Sleep has improved with combination of medication and sleep hygiene. Currently engaged in weekly cognitive behavioral therapy with LCSW. Patient reports fewer panic attacks (now 0-1 per month, previously 3-4 per week). Able to work full-time without significant impairment. Occasional breakthrough anxiety managed with hydroxyzine PRN.\n" ++
      "\n" ++
      "CURRENT PSYCHIATRIC MEDICATIONS:\n" ++
      "1. Sertraline 75mg PO daily in AM - SSRI for anxiety\n" ++
      "2. Hydroxyzine 25mg PO QHS PRN insomnia/anxiety (using 2-3x/week)\n" ++
      "\n" ++
      "PSYCHIATRIC REVIEW:\n" ++
      "Mood: \"Generally good, some ups and downs\"\n" ++
      "Affect: Bright, appropriate\n" ++
      "Sleep: 6-7 hours per night, improved sleep latency\n" ++
      "Appetite: Normal, no recent weight changes\n" ++
      "Energy: Good during day\n" ++
      "Concentration: Improved, able to focus at work\n" ++
      "Anxiety: Reduced frequency and intensity\n" ++
      "Panic attacks: 0-1 per month (down from 3-4 per week)\n" ++
      "Suicidal ideation: Denies active/passive SI, no self-harm behaviors\n" ++
      "Homicidal ideation: Denies\n" ++
      "\n" ++
      "STANDARDIZED ASSESSMENTS:\n" ++
      "GAD-7 Score: 8/21 (Mild anxiety)\n" ++
      "- Previous score (4/2024): 15/21 (Moderate anxiety)\n" ++
      "PHQ-9 Score: 4/27 (Minimal depression)\n" ++
      "- Previous score (4/2024): 7/27 (Mild depression)\n" ++
      "\n" ++
      "SUBSTANCE USE:\n" ++
      "Alcohol: Social use, 1-2 drinks per week\n" ++
      "Tobacco: Never smoker\n" ++
      "Recreational drugs: Denies\n" ++
      "Caffeine: 1-2 cups coffee daily\n" ++
      "\n" ++
      "THERAPY ENGAGEMENT:\n" ++
      "Currently in CBT with Amanda Chen, LCSW - weekly sessions\n" ++
      "Progress: Good. Learning and applying coping strategies effectively\n" ++
      "Homework compliance: Excellent\n" ++
      "\n" ++
      "ASSESSMENT AND PLAN:\n" ++
      "\n" ++
      "1. GENERALIZED ANXIETY DISORDER - SIGNIFICANTLY IMPROVED\n" ++
      "   • GAD-7 score decreased from 15 to 8 (47% improvement)\n" ++
      "   • Panic attacks markedly reduced\n" ++
      "   • Functional improvement in work and social settings\n" ++
      "   • Continue sertraline 75mg daily\n" ++
      "   • Patient tolerating medication well, no side effects reported\n" ++
      "   • Continue weekly CBT - consider transitioning to biweekly in 2-3 months if stability maintained\n" ++
      "\n" ++
      "2. INSOMNIA - IMPROVED\n" ++
      "   • Sleep hygiene practices implemented successfully\n" ++
      "   • Hydroxyzine PRN effective when needed\n" ++
      "   • Continue current regimen\n" ++
      "   • Reinforce sleep hygiene: consistent schedule, screen time limits, relaxation techniques\n" ++
      "\n" ++
      "PATIENT EDUCATION:\n" ++
      "- Discussed importance of medication continuity even when feeling better\n" ++
      "- Reviewed warning signs of relapse: increased worry, panic attacks, avoidance behaviors\n" ++
      "- Encouraged continued therapy engagement\n" ++
      "- Stress management: regular exercise, mindfulness practice\n" ++
      "- Patient verbalizes understanding and agreement with plan\n" ++
      "\n" ++
      "SAFETY ASSESSMENT:\n" ++
      "Low risk: No SI/HI, good support system, engaged in treatment\n" ++
      "\n" ++
      "FOLLOW-UP:\n" ++
      "- Return in 3 months\n" ++
      "- Continue weekly therapy\n" ++
      "- Call if symptoms worsen or side effects develop\n" ++
      "- Encouraged to use crisis resources if needed (988 Suicide & Crisis Lifeline)\n" ++
      "\n" ++
      "ELECTRONICALLY SIGNED:\n" ++
      "Dr. Lisa Patel, MD\n" ++
      "Board Certified Psychiatry\n" ++
      "October 20, 2024 15:45 PST").toList }

/-- Demo fixture bundle for demo-patient-4. -/
def demoBundle4 (cy : Int) : DemoBundle :=
  { patient := demoPat4 cy,
    conditions := [
      { id := "cond-10".toList, display := "Osteoarthritis of Bilateral Knees (M17.0)".toList, clinicalStatus := "active".toList, onsetDate := "2019-11-12".toList, category := "Musculoskeletal".toList, severity := "Moderate".toList },
      { id := "cond-11".toList, display := "Obesity (E66.9)".toList, clinicalStatus := "active".toList, onsetDate := "2015-01-10".toList, category := "Metabolic".toList, severity := "Class I (BMI 32.4)".toList }],
    medications := [
      { id := "med-9".toList, name := "Ibuprofen".toList, status := "active".toList, dosage := "400mg".toList, frequency := "Three times daily with food".toList, route := "Oral".toList, prescribedDate := "2023-03-10".toList, instructions := "NSAID for pain/inflammation. Take with food to reduce GI upset. Monitor for GI bleeding. Do not exceed 1200mg/day.".toList },
      { id := "med-10".toList, name := "Glucosamine-Chondroitin".toList, status := "active".toList, dosage := "1500mg-1200mg".toList, frequency := "Once daily".toList, route := "Oral".toList, prescribedDate := "2024-01-15".toList, instructions := "Joint supplement. May take 2-3 months for effect. OTC supplement.".toList }],
    documents := [
      { id := "doc-9".toList, type := "Physical Therapy Progress Note".toList, date := "2024-11-05".toList, author := "PT James Miller, DPT".toList, description := "Patient completing strengthening exercises. Improved quadriceps strength bilaterally.".toList },
      { id := "doc-10".toList, type := "X-Ray Report - Bilateral Knees".toList, date := "2024-09-20".toList, author := "Dr. Robert Kim, MD Radiology".toList, description := "Moderate joint space narrowing. Mild osteophyte formation. Consistent with osteoarthritis.".toList }],
    observations := [
      { id := "obs-10".toList, display := "Pain Scale (0-10)".toList, value := "4".toList, unit := "out of 10".toList, date := "2024-11-05".toList, status := "final".toList, interpretation := "Moderate pain, improved from baseline (was 7/10)".toList },
      { id := "obs-11".toList, display := "BMI".toList, value := "32.4".toList, unit := "kg/m²".toList, date := "2024-11-05".toList, status := "final".toList, interpretation := "Class I Obesity - Weight loss recommended".toList }],
    clinical_notes :=
      ("PATIENT: Robert Martinez (MRN: MRN011223)\n" ++
      "DATE OF VISIT: November 5, 2024\n" ++
      "PROVIDER: Dr. Amanda Foster, MD - Orthopedics\n" ++
      "VISIT TYPE: Follow-Up - Osteoarthritis Management\n" ++
      "\n" ++
      "CHIEF COMPLAINT: Bilateral knee pain, improving with physical therapy.\n" ++
      "\n" ++
      "HISTORY OF PRESENT ILLNESS:\n" ++
      "58-year-old male with bilateral knee osteoarthritis (diagnosed 2019) presents for follow-up. Patient has been compliant with physical therapy (2x/week for 8 weeks). Reports pain improved from 7/10 to 4/10 with combination of PT, NSAIDs, and activity modification. Still experiences stiffness after prolonged sitting and with stairs. Working on weight loss (down 8 lbs in 3 months). No mechanical symptoms (locking, catching). No swelling or erythema.\n" ++
      "\n" ++
      "MEDICATIONS: Ibuprofen 400mg TID, Glucosamine-Chondroitin supplement\n" ++
      "\n" ++
      "PHYSICAL EXAMINATION:\n" ++
      "Bilateral Knees:\n" ++
      "- Inspection: No effusion, erythema, or deformity\n" ++
      "- Palpation: Mild tenderness over medial joint lines bilaterally\n" ++
      "- Range of Motion: Flexion 0-125° (full), Extension 0° (full)\n" ++
      "- Ligaments: ACL/PCL/MCL/LCL stable\n" ++
      "- Meniscal Signs: Negative McMurray test\n" ++
      "- Crepitus: Present with ROM, more pronounced left > right\n" ++
      "- Gait: Antalgic gait, favoring left leg\n" ++
      "\n" ++
      "X-RAY FINDINGS (9/20/2024):\n" ++
      "Bilateral knees: Moderate joint space narrowing medial compartments. Mild osteophyte formation. Kellgren-Lawrence Grade 2-3.\n" ++
      "\n" ++
      "ASSESSMENT: Bilateral knee osteoarthritis, moderate severity, improving with conservative management.\n" ++
      "\n" ++
      "PLAN:\n" ++
      "1. Continue ibuprofen 400mg TID with food\n" ++
      "2. Continue PT - focusing on quadriceps strengthening, balance training\n" ++
      "3. Weight loss goal: Additional 15-20 lbs over next 6 months\n" ++
      "4. Consider intra-articular corticosteroid injection if pain plateaus\n" ++
      "5. Knee braces for support during activity\n" ++
      "6. Follow up 3 months - may consider hyaluronic acid injections if conservative management insufficient\n" ++
      "\n" ++
      "ELECTRONICALLY SIGNED: Dr. Amanda Foster, MD - Orthopedics, November 5, 2024").toList }

/-- Demo fixture bundle for demo-patient-5. -/
def demoBundle5 (cy : Int) : DemoBundle :=
  { patient := demoPat5 cy,
    conditions := [
      { id := "cond-12".toList, display := "Coronary Artery Disease - Status Post MI (I25.2)".toList, clinicalStatus := "active".toList, onsetDate := "2021-08-30".toList, category := "Cardiovascular".toList, severity := "Stable, post-intervention".toList },
      { id := "cond-13".toList, display := "Hyperlipidemia (E78.5)".toList, clinicalStatus := "active".toList, onsetDate := "2020-01-10".toList, category := "Metabolic".toList, severity := "Controlled".toList },
      { id := "cond-14".toList, display := "Hypertension (I10)".toList, clinicalStatus := "active".toList, onsetDate := "2019-06-20".toList, category := "Cardiovascular".toList, severity := "Controlled".toList }],
    medications := [
      { id := "med-11".toList, name := "Atorvastatin Calcium".toList, status := "active".toList, dosage := "80mg".toList, frequency := "Once daily at bedtime".toList, route := "Oral".toList, prescribedDate := "2021-09-05".toList, instructions := "High-intensity statin post-MI. Target LDL < 70. Report muscle pain immediately.".toList },
      { id := "med-12".toList, name := "Aspirin (Enteric Coated)".toList, status := "active".toList, dosage := "81mg".toList, frequency := "Once daily with food".toList, route := "Oral".toList, prescribedDate := "2021-09-05".toList, instructions := "Antiplatelet therapy post-MI. Take daily to prevent clotting. Report unusual bleeding.".toList },
      { id := "med-13".toList, name := "Metoprolol Succinate ER".toList, status := "active".toList, dosage := "50mg".toList, frequency := "Once daily in morning".toList, route := "Oral".toList, prescribedDate := "2021-09-05".toList, instructions := "Beta blocker for heart rate/BP control. Do not stop abruptly. Monitor heart rate.".toList },
      { id := "med-14".toList, name := "Lisinopril".toList, status := "active".toList, dosage := "20mg".toList, frequency := "Once daily in morning".toList, route := "Oral".toList, prescribedDate := "2021-09-05".toList, instructions := "ACE inhibitor for cardiac protection post-MI. Monitor kidney function and potassium.".toList }],
    documents := [
      { id := "doc-11".toList, type := "Cardiology Follow-Up".toList, date := "2024-10-25".toList, author := "Dr. Thomas Wilson, MD".toList, description := "Post-MI surveillance. Patient stable on optimal medical therapy.".toList },
      { id := "doc-12".toList, type := "Echocardiogram Report".toList, date := "2024-10-15".toList, author := "Cardiology Imaging".toList, description := "LVEF 52%. Mild hypokinesis anterior wall. No significant valvular disease.".toList },
      { id := "doc-13".toList, type := "Stress Test Report".toList, date := "2024-10-20".toList, author := "Nuclear Cardiology".toList, description := "Exercise tolerance 9.2 METS. No inducible ischemia. Negative for angina.".toList }],
    observations := [
      { id := "obs-12".toList, display := "LDL Cholesterol".toList, value := "65".toList, unit := "mg/dL".toList, date := "2024-10-15".toList, status := "final".toList, interpretation := "At goal (< 70 mg/dL post-MI). Excellent control.".toList },
      { id := "obs-13".toList, display := "Troponin I".toList, value := "< 0.01".toList, unit := "ng/mL".toList, date := "2024-10-15".toList, status := "final".toList, interpretation := "Negative. No evidence of acute cardiac injury.".toList },
      { id := "obs-14".toList, display := "Blood Pressure".toList, value := "122/78".toList, unit := "mmHg".toList, date := "2024-10-25".toList, status := "final".toList, interpretation := "Optimal control".toList },
      { id := "obs-15".toList, display := "Ejection Fraction (LVEF)".toList, value := "52".toList, unit := "%".toList, date := "2024-10-15".toList, status := "final".toList, interpretation := "Normal (> 50%). Preserved systolic function.".toList }],
    clinical_notes :=
      ("PATIENT: David Thompson (MRN: MRN013344)\n" ++
      "DATE OF VISIT: October 25, 2024\n" ++
      "PROVIDER: Dr. Thomas Wilson, MD - Cardiology\n" ++
      "VISIT TYPE: Post-MI Follow-Up & Cardiac Risk Management\n" ++
      "\n" ++
      "CHIEF COMPLAINT: Routine cardiology follow-up, feeling well.\n" ++
      "\n" ++
      "HISTORY OF PRESENT ILLNESS:\n" ++
      "62-year-old male with history of ST-elevation myocardial infarction (STEMI) in August 2021, status post PCI with drug-eluting stent to LAD. Patient presents for routine surveillance. Currently asymptomatic. No chest pain, shortness of breath, palpitations, or orthopnea. Exercise tolerance good - walks 2 miles daily without angina. Compliant with all cardiac medications. Recent stress test negative for ischemia. Echocardiogram shows preserved EF 52%. Successfully quit smoking post-MI (3+ years tobacco-free).\n" ++
      "\n" ++
      "CARDIAC MEDICATIONS:\n" ++
      "1. Atorvastatin 80mg PO QHS - high-intensity statin\n" ++
      "2. Aspirin 81mg PO daily - antiplatelet therapy\n" ++
      "3. Metoprolol Succinate 50mg PO daily - beta blocker\n" ++
      "4. Lisinopril 20mg PO daily - ACE inhibitor\n" ++
      "\n" ++
      "PAST MEDICAL HISTORY:\n" ++
      "- CAD: STEMI 8/2021, PCI with DES to LAD\n" ++
      "- Hypertension (controlled)\n" ++
      "- Hyperlipidemia (controlled)\n" ++
      "- Former smoker (quit 8/2021)\n" ++
      "\n" ++
      "CARDIOVASCULAR REVIEW:\n" ++
      "Chest pain: Denies\n" ++
      "Shortness of breath: Denies\n" ++
      "Palpitations: Denies\n" ++
      "Syncope/Presyncope: Denies\n" ++
      "Edema: Denies\n" ++
      "Orthopnea/PND: Denies\n" ++
      "Exercise tolerance: Excellent - 2 miles daily, no symptoms\n" ++
      "\n" ++
      "RECENT TESTING:\n" ++
      "Echocardiogram (10/15/2024):\n" ++
      "- LVEF: 52% (normal)\n" ++
      "- Regional wall motion: Mild hypokinesis anterior wall (consistent with old MI)\n" ++
      "- Valves: No significant disease\n" ++
      "- Pericardium: Normal\n" ++
      "\n" ++
      "Exercise Stress Test with Nuclear Imaging (10/20/2024):\n" ++
      "- Duration: 9.2 METS (good functional capacity)\n" ++
      "- Peak HR: 132 bpm (83% maximum predicted)\n" ++
      "- BP response: Appropriate\n" ++
      "- No chest pain or significant ST changes\n" ++
      "- Perfusion: No reversible defects, small fixed defect anterior (scar)\n" ++
      "- Interpretation: NEGATIVE for inducible ischemia\n" ++
      "\n" ++
      "Laboratory Results (10/15/2024):\n" ++
      "- Lipid Panel:\n" ++
      "  * Total Cholesterol: 142 mg/dL\n" ++
      "  * LDL: 65 mg/dL (GOAL: < 70) ✓\n" ++
      "  * HDL: 48 mg/dL\n" ++
      "  * Triglycerides: 105 mg/dL\n" ++
      "- Troponin I: < 0.01 ng/mL (negative)\n" ++
      "- BNP: 45 pg/mL (normal)\n" ++
      "- Creatinine: 0.9 mg/dL (normal renal function)\n" ++
      "- Potassium: 4.1 mEq/L (normal)\n" ++
      "\n" ++
      "PHYSICAL EXAMINATION:\n" ++
      "Vitals: BP 122/78, HR 58 (on beta blocker), RR 14, SpO2 99%\n" ++
      "General: Well-appearing, no distress\n" ++
      "Cardiovascular: Regular rate and rhythm, no murmurs/rubs/gallops\n" ++
      "  - No JVD\n" ++
      "  - PMI non-displaced\n" ++
      "  - Carotids: 2+ without bruits\n" ++
      "  - Peripheral pulses: 2+ throughout, no edema\n" ++
      "Lungs: Clear to auscultation bilaterally\n" ++
      "\n" ++
      "ASSESSMENT:\n" ++
      "1. CORONARY ARTERY DISEASE - STABLE, POST-MI\n" ++
      "   • 3+ years post-STEMI with excellent recovery\n" ++
      "   • Negative stress test - no evidence of recurrent ischemia\n" ++
      "   • LVEF preserved at 52%\n" ++
      "   • No anginal symptoms\n" ++
      "   • Excellent functional capacity\n" ++
      "   \n" ++
      "2. HYPERLIPIDEMIA - OPTIMALLY CONTROLLED\n" ++
      "   • LDL 65 mg/dL on atorvastatin 80mg (at goal < 70)\n" ++
      "   • Continue high-intensity statin therapy indefinitely\n" ++
      "   \n" ++
      "3. HYPERTENSION - WELL CONTROLLED\n" ++
      "   • BP 122/78 on dual therapy\n" ++
      "   • Target < 130/80 achieved\n" ++
      "   \n" ++
      "4. CARDIOVASCULAR RISK REDUCTION - EXCELLENT COMPLIANCE\n" ++
      "   • Tobacco cessation maintained (3+ years)\n" ++
      "   • Daily aerobic exercise\n" ++
      "   • Medication adherence 100%\n" ++
      "   • Diet modifications implemented\n" ++
      "\n" ++
      "PLAN:\n" ++
      "1. Continue all current cardiac medications - no changes needed\n" ++
      "2. Continue secondary prevention measures\n" ++
      "3. Annual stress testing - next due October 2025\n" ++
      "4. Annual echocardiogram - next due October 2025\n" ++
      "5. Labs every 6 months (lipids, CMP)\n" ++
      "6. Flu vaccine today - administered\n" ++
      "7. Pneumococcal vaccine up to date\n" ++
      "\n" ++
      "PATIENT EDUCATION:\n" ++
      "- Reinforce medication importance - \"medications for life\"\n" ++
      "- Continue daily exercise regimen\n" ++
      "- Heart-healthy diet: low saturated fat, high fiber\n" ++
      "- Warning signs of MI: chest pain, SOB, diaphoresis → Call 911\n" ++
      "- Patient verbalizes excellent understanding\n" ++
      "\n" ++
      "FOLLOW-UP: 6 months for routine visit. Call sooner if symptoms develop.\n" ++
      "\n" ++
      "ELECTRONICALLY SIGNED:\n" ++
      "Dr. Thomas Wilson, MD\n" ++
      "Board Certified Cardiology\n" ++
      "October 25, 2024 16:20 PST").toList }

/-- `getDemoPatientData(patientId)`: the fixture bundle for the given id,
    falling back to demo-patient-1 (`demoPatients[patientId] ||
    demoPatients['demo-patient-1']`). -/
def getDemoPatientData (cy : Int) (patientId : List Char) : DemoBundle :=
  if patientId = "demo-patient-1".toList then demoBundle1 cy
  else if patientId = "demo-patient-2".toList then demoBundle2 cy
  else if patientId = "demo-patient-3".toList then demoBundle3 cy
  else if patientId = "demo-patient-4".toList then demoBundle4 cy
  else if patientId = "demo-patient-5".toList then demoBundle5 cy
  else demoBundle1 cy

/-! ### Patient search -/

/-- The demo search filter: case-insensitive substring match of the query
    against name, MRN, or email. -/
def demoQueryMatch (query : List Char) (p : DemoPatient) : Bool :=
  let lowerQuery := toLowerL query
  containsL lowerQuery (toLowerL p.name) || containsL lowerQuery (toLowerL p.mrn) ||
    containsL lowerQuery (toLowerL p.email)

/-- Failures of the patient search. -/
inductive SearchErr where
  | tokenErr (e : TokErr)
  | searchFailed
  | invalidPatient (m : List Char)
  | auditFailed (m : List Char)

/-- A search result: demo fixture patients or parsed FHIR patients. -/
inductive SearchResult where
  | demo (l : List DemoPatient)
  | fhir (l : List PatientView)

/-- Environment of `searchEpicPatients`. -/
structure SearchEnv where
  demoMode : Bool
  row : Option TokenRow
  refEnv : RefreshEnv
  searchOk : Bool
  entries : Option (List (Option PatientResource))
  today : DateT
  auditOutcome : Except (List Char) Unit

/-- Result of a search with its side-effect counts. -/
structure SearchOut where
  result : Except SearchErr SearchResult
  audits : Nat
  net : Nat

/-- `searchEpicPatients(doctorEmail, query)`: demo mode filters the five
    fixture patients (no audit write in the source); production issues one
    FHIR query, parses the bundle entries, and logs one audit event. -/
def searchEpicPatients (doctorEmail query : List Char) (cy : Int) (env : SearchEnv) : SearchOut :=
  if env.demoMode || doctorEmail == demoEmail then
    let demoPatients := getDemoPatients cy
    if query ≠ [] ∧ trimL query ≠ [] then
      { result := .ok (.demo (demoPatients.filter (demoQueryMatch query))), audits := 0, net := 0 }
    else { result := .ok (.demo demoPatients), audits := 0, net := 0 }
  else
    match getEpicToken env.row env.refEnv with
    | ⟨.error e, n, a⟩ => { result := .error (.tokenErr e), audits := a, net := n }
    | ⟨.ok _accessToken, n, a⟩ =>
      if !env.searchOk then { result := .error .searchFailed, audits := a, net := n + 1 }
      else
        match (env.entries.getD []).mapM (fun entry => parsePatient entry env.today) with
        | .error m => { result := .error (.invalidPatient m), audits := a, net := n + 1 }
        | .ok patients =>
          match logAuditEvent env.auditOutcome with
          | .error m => { result := .error (.auditFailed m), audits := a + 1, net := n + 1 }
          | .ok _ => { result := .ok (.fhir patients), audits := a + 1, net := n + 1 }

/-! ### Patient data sync and the snapshot store -/

/-- The production-path bundle of normalized resources. -/
structure ParsedBundle where
  patient : PatientView
  conditions : List CondView
  medications : List MedView
  documents : List DocView
  observations : List ObsView

/-- The serialized diagnoses column (`JSON.stringify(conditions)`),
    modelled structurally at each record shape. -/
inductive DiagPayload where
  | demo (l : List DemoCond)
  | fhir (l : List CondView)

/-- The serialized medications column (`JSON.stringify(medications)`). -/
inductive MedPayload where
  | demo (l : List DemoMed)
  | fhir (l : List MedView)

/-- A row of the `epic_patient_data` table. -/
structure StoredRow where
  doctor_email : List Char
  epic_patient_id : List Char
  epic_mrn : Option (List Char)
  patient_name : List Char
  patient_dob : Option (List Char)
  clinical_notes : List Char
  diagnoses : DiagPayload
  medications : MedPayload
  last_synced : Int

/-- `generateClinicalNotesText(documents)` at the demo record shape. -/
def generateClinicalNotesTextDemo (documents : List DemoDoc) : List Char :=
  if documents = [] then []
  else
    joinL "\n".toList ((documents.take 5).map (fun doc =>
      doc.type ++ " (".toList ++ doc.date ++ "): ".toList ++
      (jsOrD (some doc.description) "No description".toList)))

/-- `generateClinicalNotesText(documents)` at the parsed record shape (a
    null date renders as "null" under template-literal semantics). -/
def generateClinicalNotesTextF (documents : List DocView) : List Char :=
  if documents = [] then []
  else
    joinL "\n".toList ((documents.take 5).map (fun doc =>
      doc.type ++ " (".toList ++ (doc.date.getD "null".toList) ++ "): ".toList ++
      (jsOrD doc.description "No description".toList)))

/-- `storeEpicPatientData` at the demo bundle shape: the row upserted into
    `epic_patient_data`. -/
def snapshotOfDemo (doctorEmail epicPatientId : List Char) (nowMs : Int) (b : DemoBundle) :
    StoredRow :=
  { doctor_email := doctorEmail
    epic_patient_id := epicPatientId
    epic_mrn := some b.patient.mrn
    patient_name := b.patient.name
    patient_dob := some b.patient.birthDate
    clinical_notes := generateClinicalNotesTextDemo b.documents
    diagnoses := .demo b.conditions
    medications := .demo b.medications
    last_synced := nowMs }

/-- `storeEpicPatientData` at the parsed bundle shape. -/
def snapshotOfParsed (doctorEmail epicPatientId : List Char) (nowMs : Int) (b : ParsedBundle) :
    StoredRow :=
  { doctor_email := doctorEmail
    epic_patient_id := epicPatientId
    epic_mrn := b.patient.mrn
    patient_name := b.patient.name
    patient_dob := b.patient.birthDate
    clinical_notes := generateClinicalNotesTextF b.documents
    diagnoses := .fhir b.conditions
    medications := .fhir b.medications
    last_synced := nowMs }

/-- Failures of `fetchPatientData`. -/
inductive FetchErr where
  | storeFailed (m : List Char)
  | tokenErr (e : TokErr)
  | invalidPatient (m : List Char)
  | auditFailed (m : List Char)

/-- The returned data: a demo fixture bundle or a parsed production
    bundle. -/
inductive FetchedData where
  | demo (b : DemoBundle)
  | fhir (b : ParsedBundle)

/-- Environment of `fetchPatientData`: the credential row and refresh
    environment for the token supplier, the five FHIR fetch outcomes after
    their individual-failure degradation (`fetchResource` returns null,
    `fetchResourceBundle` returns `[]` on a failed response), the store
    outcome, the audit outcome and the clock. -/
structure FetchEnv where
  demoMode : Bool
  row : Option TokenRow
  refEnv : RefreshEnv
  patientRes : Option PatientResource
  condRes : List CondResource
  medRes : List MedResource
  docRes : List DocResource
  obsRes : List ObsResource
  today : DateT
  storeError : Option (List Char)
  auditOutcome : Except (List Char) Unit
  nowMs : Int

/-- Result of a sync with the persisted snapshot and side-effect counts. -/
structure FetchOut where
  result : Except FetchErr FetchedData
  stored : Option StoredRow
  audits : Nat
  net : Nat

/-- The demo external-patient-id marker. -/
def demoIdTag : List Char := "demo-patient-".toList

/-- `fetchPatientData(doctorEmail, epicPatientId)`: demo mode (including any
    id starting with `demo-patient-`) returns and persists the fixture
    bundle; production fetches the five resource categories concurrently,
    normalizes, persists a snapshot row and logs one audit event. -/
def fetchPatientData (doctorEmail epicPatientId : List Char) (cy : Int) (env : FetchEnv) :
    FetchOut :=
  if env.demoMode || doctorEmail == demoEmail || startsWithL demoIdTag epicPatientId then
    let demoData := getDemoPatientData cy epicPatientId
    match env.storeError with
    | some m => { result := .error (.storeFailed m), stored := none, audits := 0, net := 0 }
    | none =>
      match logAuditEvent env.auditOutcome with
      | .error m =>
        { result := .error (.auditFailed m),
          stored := some (snapshotOfDemo doctorEmail epicPatientId env.nowMs demoData),
          audits := 1, net := 0 }
      | .ok _ =>
        { result := .ok (.demo demoData),
          stored := some (snapshotOfDemo doctorEmail epicPatientId env.nowMs demoData),
          audits := 1, net := 0 }
  else
    match getEpicToken env.row env.refEnv with
    | ⟨.error e, n, a⟩ => { result := .error (.tokenErr e), stored := none, audits := a, net := n }
    | ⟨.ok _accessToken, n, a⟩ =>
      -- Promise.all: five concurrent resource fetches
      match parsePatient env.patientRes env.today with
      | .error m =>
        { result := .error (.invalidPatient m), stored := none, audits := a, net := n + 5 }
      | .ok patient =>
        let parsedData : ParsedBundle :=
          { patient := patient
            conditions := parseConditions (.arr env.condRes)
            medications := parseMedications (.arr env.medRes)
            documents := parseDocuments (.arr env.docRes)
            observations := parseObservations (.arr env.obsRes) }
        match env.storeError with
        | some m =>
          { result := .error (.storeFailed m), stored := none, audits := a, net := n + 5 }
        | none =>
          match logAuditEvent env.auditOutcome with
          | .error m =>
            { result := .error (.auditFailed m),
              stored := some (snapshotOfParsed doctorEmail epicPatientId env.nowMs parsedData),
              audits := a + 1, net := n + 5 }
          | .ok _ =>
            { result := .ok (.fhir parsedData),
              stored := some (snapshotOfParsed doctorEmail epicPatientId env.nowMs parsedData),
              audits := a + 1, net := n + 5 }

/-- The five fixture patient ids. -/
def demoFixtureIds : List (List Char) :=
  ["demo-patient-1".toList, "demo-patient-2".toList, "demo-patient-3".toList,
   "demo-patient-4".toList, "demo-patient-5".toList]

/-- A concrete callback environment holding a stored CSRF state. -/
def cexCallbackEnv : CallbackEnv :=
  { sessionState := some "good-state".toList, sessionEmail := some "doc@x".toList,
    tokenOk := true, tokenErrBody := [], newAccessToken := "tok".toList,
    newRefreshToken := none, expires_in := 3600, upsertError := none,
    auditOutcome := .ok (), key := none, nowMs := 0, iv1 := [], iv2 := [] }

/-- A concrete stored credential row, not yet expired at `nowMs = 500`. -/
def cexTokenRow : TokenRow :=
  { access_token := "UNENCRYPTED:aGk=".toList, refresh_token := none, expires_at := 1000 }

/-- A concrete refresh environment with the clock at 500 ms. -/
def cexRefreshEnv : RefreshEnv :=
  { key := none, tokenOk := true, newAccessToken := [], newRefreshToken := none,
    expires_in := 3600, updateError := none, auditOutcome := .ok (), nowMs := 500,
    iv1 := [], iv2 := [] }

/-- A concrete search environment (demo decided by the principal). -/
def cexSearchEnv : SearchEnv :=
  { demoMode := false, row := none, refEnv := cexRefreshEnv, searchOk := true,
    entries := none, today := cexToday, auditOutcome := .ok () }

/-- A concrete fetch environment with a healthy store. -/
def cexFetchEnv : FetchEnv :=
  { demoMode := false, row := none, refEnv := cexRefreshEnv, patientRes := none,
    condRes := [], medRes := [], docRes := [], obsRes := [], today := cexToday,
    storeError := none, auditOutcome := .ok (), nowMs := 1234 }

/-! ################################################################
    Supporting lemmas and claim theorems (all definitions precede
    this point; claim-specific embeddings are inserted above).
    ################################################################ -/

theorem b64Val_charAt : ∀ x, x < 64 → b64Val (b64CharAt x) = some x := by decide

theorem b64CharAt_lt : ∀ m, m < 64 → b64Chars.getD m 'A' ∈ b64Chars := by decide

theorem b64CharAt_mem (x : Nat) : b64CharAt x ∈ b64Chars := by
  unfold b64CharAt
  exact b64CharAt_lt _ (Nat.mod_lt _ (by omega))

theorem b64CharAt_lt_ne : ∀ m, m < 64 → b64Chars.getD m 'A' ≠ '=' := by decide

theorem b64CharAt_ne_eq (x : Nat) : b64CharAt x ≠ '=' := by
  unfold b64CharAt
  exact b64CharAt_lt_ne _ (Nat.mod_lt _ (by omega))

theorem mem_base64Encode : ∀ bs : List Nat, ∀ ch ∈ base64Encode bs, ch = '=' ∨ ch ∈ b64Chars := by
  intro bs
  induction bs using base64Encode.induct with
  | case1 => simp [base64Encode]
  | case2 a =>
    simp only [base64Encode]
    intro ch hch
    simp only [List.mem_cons, List.not_mem_nil, or_false] at hch
    rcases hch with h | h | h | h <;> subst h <;>
      first | exact Or.inl rfl | exact Or.inr (b64CharAt_mem _)
  | case3 a b =>
    simp only [base64Encode]
    intro ch hch
    simp only [List.mem_cons, List.not_mem_nil, or_false] at hch
    rcases hch with h | h | h | h <;> subst h <;>
      first | exact Or.inl rfl | exact Or.inr (b64CharAt_mem _)
  | case4 a b c rest ih =>
    simp only [base64Encode]
    intro ch hch
    simp only [List.mem_cons] at hch
    rcases hch with h | h | h | h | h
    · exact h ▸ Or.inr (b64CharAt_mem _)
    · exact h ▸ Or.inr (b64CharAt_mem _)
    · exact h ▸ Or.inr (b64CharAt_mem _)
    · exact h ▸ Or.inr (b64CharAt_mem _)
    · exact ih ch h

theorem colon_not_mem_base64 (bs : List Nat) : ':' ∉ base64Encode bs := by
  intro h
  rcases mem_base64Encode bs ':' h with h1 | h1
  · exact absurd h1 (by decide)
  · exact absurd h1 (by decide)

theorem startsWithL_append (p t : List Char) : startsWithL p (p ++ t) = true := by
  induction p with
  | nil => rfl
  | cons c cs ih => simp [startsWithL, ih]

theorem startsWithL_exists {p s : List Char} (h : startsWithL p s = true) :
    ∃ t, s = p ++ t := by
  induction p generalizing s with
  | nil => exact ⟨s, rfl⟩
  | cons c cs ih =>
    cases s with
    | nil => simp [startsWithL] at h
    | cons d ds =>
      simp only [startsWithL] at h
      split at h
      · next heq =>
        obtain ⟨t, ht⟩ := ih h
        exact ⟨t, by simp [heq, ht]⟩
      · simp at h

theorem not_startsWith_unencTag_base64 (bs : List Nat) :
    startsWithL unencTag (base64Encode bs) = false := by
  by_contra h
  rw [Bool.not_eq_false] at h
  obtain ⟨t, ht⟩ := startsWithL_exists h
  have hc : ':' ∈ base64Encode bs := by
    rw [ht]
    exact List.mem_append_left _ (by decide)
  exact colon_not_mem_base64 bs hc

theorem replaceFirstL_append (pat t : List Char) (h : pat ≠ []) :
    replaceFirstL pat (pat ++ t) = t := by
  cases pat with
  | nil => exact absurd rfl h
  | cons c cs =>
    show replaceFirstL (c :: cs) ((c :: cs) ++ t) = t
    rw [List.cons_append, replaceFirstL]
    rw [← List.cons_append, if_pos (startsWithL_append _ _), List.drop_left]

theorem base64_roundtrip : ∀ bs : List Nat, (∀ b ∈ bs, b < 256) →
    base64Decode (base64Encode bs) = some bs := by
  intro bs
  induction bs using base64Encode.induct with
  | case1 => intro _; rfl
  | case2 a =>
    intro h
    have ha : a < 256 := h a (by simp)
    simp only [base64Encode, base64Decode]
    rw [b64Val_charAt _ (by omega), b64Val_charAt _ (by omega)]
    simp only [if_pos rfl, and_self, reduceIte]
    congr 2
    omega
  | case3 a b =>
    intro h
    have ha : a < 256 := h a (by simp)
    have hb : b < 256 := h b (by simp)
    simp only [base64Encode, base64Decode]
    rw [b64Val_charAt _ (by omega), b64Val_charAt _ (by omega)]
    dsimp only
    rw [if_neg (b64CharAt_ne_eq _), b64Val_charAt _ (by omega)]
    dsimp only
    simp only [if_pos rfl, reduceIte, Option.some.injEq, List.cons.injEq, and_true]
    exact ⟨by omega, by omega⟩
  | case4 a b c rest ih =>
    intro h
    have ha : a < 256 := h a (by simp)
    have hb : b < 256 := h b (by simp)
    have hc : c < 256 := h c (by simp)
    have hrest : ∀ x ∈ rest, x < 256 := fun x hx => h x (by simp [hx])
    simp only [base64Encode, base64Decode]
    rw [b64Val_charAt _ (by omega), b64Val_charAt _ (by omega)]
    dsimp only
    rw [if_neg (b64CharAt_ne_eq _), b64Val_charAt _ (by omega)]
    dsimp only
    rw [if_neg (b64CharAt_ne_eq _), b64Val_charAt _ (by omega)]
    dsimp only
    rw [ih hrest]
    show some _ = some (a :: b :: c :: rest)
    rw [Option.some.injEq]
    simp only [List.cons.injEq]
    refine ⟨by omega, by omega, by omega, trivial⟩

theorem utf8DecodeLossy_low (b : Nat) (t : List Nat) (h : b < 128) :
    utf8DecodeLossy (b :: t) = b :: utf8DecodeLossy t := by
  cases t with
  | nil => simp [utf8DecodeLossy, h]
  | cons b2 r => simp [utf8DecodeLossy, h]

theorem utf8DecodeLossy_two (b b2 : Nat) (t : List Nat)
    (h : 192 ≤ b ∧ b < 224) (h2 : 128 ≤ b2 ∧ b2 < 192) :
    utf8DecodeLossy (b :: b2 :: t) = ((b - 192) * 64 + (b2 - 128)) :: utf8DecodeLossy t := by
  have hb : ¬ b < 128 := by omega
  simp [utf8DecodeLossy, hb, h, h2]

theorem utf8_roundtrip : ∀ l : List Nat, (∀ c ∈ l, c < 256) →
    utf8DecodeLossy (utf8Encode l) = l := by
  intro l
  induction l with
  | nil => intro _; rfl
  | cons c rest ih =>
    intro h
    have hc : c < 256 := h c (by simp)
    have hrest : ∀ x ∈ rest, x < 256 := fun x hx => h x (by simp [hx])
    show utf8DecodeLossy (utf8EncCU c ++ utf8Encode rest) = c :: rest
    by_cases h1 : c < 128
    · rw [utf8EncCU, if_pos h1]
      show utf8DecodeLossy (c :: utf8Encode rest) = c :: rest
      rw [utf8DecodeLossy_low c _ h1, ih hrest]
    · rw [utf8EncCU, if_neg h1]
      show utf8DecodeLossy ((192 + c / 64 % 32) :: (128 + c % 64) :: utf8Encode rest) = c :: rest
      rw [utf8DecodeLossy_two _ _ _ (by omega) (by omega), ih hrest]
      have harith : (192 + c / 64 % 32 - 192) * 64 + (128 + c % 64 - 128) = c := by omega
      rw [harith]

theorem zip_xor_cancel : ∀ (l s : List Nat), l.length = s.length →
    List.zipWith Nat.xor (List.zipWith Nat.xor l s) s = l := by
  intro l
  induction l with
  | nil => intro s _; simp
  | cons a l ih =>
    intro s hs
    cases s with
    | nil => simp at hs
    | cons b s =>
      simp only [List.zipWith_cons_cons, List.cons.injEq]
      constructor
      · show a ^^^ b ^^^ b = a
        rw [Nat.xor_assoc, Nat.xor_self, Nat.xor_zero]
      · exact ih s (by simpa using hs)

theorem gcmByte_lt (key iv : List Nat) (i : Nat) : gcmByte key iv i < 256 :=
  Nat.mod_lt _ (by omega)

theorem zip_xor_lt : ∀ (l s : List Nat), (∀ a ∈ l, a < 256) → (∀ b ∈ s, b < 256) →
    ∀ x ∈ List.zipWith Nat.xor l s, x < 256 := by
  intro l
  induction l with
  | nil => intro s _ _ x hx; simp at hx
  | cons a l ih =>
    intro s hl hs x hx
    cases s with
    | nil => simp at hx
    | cons b s =>
      simp only [List.zipWith_cons_cons, List.mem_cons] at hx
      rcases hx with h | h
      · subst h
        have h8 : (256 : Nat) = 2 ^ 8 := by norm_num
        rw [h8]
        exact Nat.xor_lt_two_pow (by rw [← h8]; exact hl a (by simp))
          (by rw [← h8]; exact hs b (by simp))
      · exact ih s (fun y hy => hl y (by simp [hy])) (fun y hy => hs y (by simp [hy])) x h

theorem gcmStream_lt (key iv : List Nat) (n : Nat) : ∀ x ∈ gcmStream key iv n, x < 256 := by
  intro x hx
  simp only [gcmStream, List.mem_map] at hx
  obtain ⟨i, _, hi⟩ := hx
  exact hi ▸ gcmByte_lt key iv i

theorem gcmCore_lt (key iv data : List Nat) (h : ∀ a ∈ data, a < 256) :
    ∀ x ∈ gcmCore key iv data, x < 256 :=
  zip_xor_lt data _ h (gcmStream_lt key iv _)

theorem gcmTag_lt (key iv ct : List Nat) : ∀ x ∈ gcmTag key iv ct, x < 256 := by
  intro x hx
  simp only [gcmTag, List.mem_map] at hx
  obtain ⟨i, _, hi⟩ := hx
  exact hi ▸ gcmByte_lt key iv _

theorem gcmCore_length (key iv data : List Nat) : (gcmCore key iv data).length = data.length := by
  simp [gcmCore, gcmStream]

theorem gcmTag_length (key iv ct : List Nat) : (gcmTag key iv ct).length = 16 := by
  simp [gcmTag]

theorem gcmCore_core (key iv pt : List Nat) :
    gcmCore key iv (gcmCore key iv pt) = pt := by
  have h : (gcmCore key iv pt).length = pt.length := gcmCore_length key iv pt
  calc gcmCore key iv (gcmCore key iv pt)
      = List.zipWith Nat.xor (gcmCore key iv pt) (gcmStream key iv (gcmCore key iv pt).length) := rfl
    _ = List.zipWith Nat.xor (List.zipWith Nat.xor pt (gcmStream key iv pt.length))
          (gcmStream key iv pt.length) := by rw [h]; rfl
    _ = pt := zip_xor_cancel pt _ (by simp [gcmStream])

theorem aesGcm_roundtrip (key iv pt : List Nat) :
    aesGcmDecrypt key iv (aesGcmEncrypt key iv pt) = some pt := by
  have hct := gcmCore_length key iv pt
  have htag := gcmTag_length key iv (gcmCore key iv pt)
  unfold aesGcmDecrypt aesGcmEncrypt
  have hlen : (gcmCore key iv pt ++ gcmTag key iv (gcmCore key iv pt)).length = pt.length + 16 := by
    simp [hct, htag]
  rw [if_neg (by omega)]
  have h1 : (gcmCore key iv pt ++ gcmTag key iv (gcmCore key iv pt)).length - 16
      = (gcmCore key iv pt).length := by omega
  simp only [h1]
  rw [List.take_left, List.drop_left, if_pos rfl, gcmCore_core]

theorem utf8Encode_lt (l : List Nat) (h : ∀ c ∈ l, c < 256) :
    ∀ b ∈ utf8Encode l, b < 256 := by
  intro b hb
  simp only [utf8Encode, List.mem_flatten, List.mem_map] at hb
  obtain ⟨bs, ⟨c, hc, hbs⟩, hbmem⟩ := hb
  subst hbs
  have hc256 := h c hc
  unfold utf8EncCU at hbmem
  split at hbmem
  · simp at hbmem; omega
  · simp at hbmem; omega

theorem charCodes_lt (x : List Char) (hx : ∀ c ∈ x, c.toNat < 256) :
    ∀ b ∈ x.map Char.toNat, b < 256 := by
  intro b hb
  simp only [List.mem_map] at hb
  obtain ⟨c, hc, hbc⟩ := hb
  exact hbc ▸ hx c hc

theorem map_ofNat_toNat (x : List Char) : (x.map Char.toNat).map Char.ofNat = x := by
  induction x with
  | nil => rfl
  | cons c cs ih => simp [ih, Char.ofNat_toNat]

/-! ## Claim C1: cipher round trip -/

/-- C1. Cipher round-trip: for every byte-accurate secret `x`, every
    configured 256-bit key `k` (a base64 string decoding to 32 bytes) and
    every 12-byte random nonce, `decrypt (encrypt x k) k = x`; and the same
    holds in the no-key fallback mode, where `encrypt` produces the tagged
    reversible `UNENCRYPTED:` encoding. -/
theorem c1_cipher_roundtrip (x k : List Char) (iv : List Nat)
    (hx : ∀ c ∈ x, c.toNat < 256)
    (hk : (base64Decode k).isSome = true ∧ ((base64Decode k).getD []).length = 32)
    (hiv12 : iv.length = 12) (hivb : ∀ b ∈ iv, b < 256) :
    (∃ blob, encrypt x (some k) iv = .ok blob ∧ decrypt blob (some k) = .ok x) ∧
    (∃ blob, encrypt x none iv = .ok blob ∧ decrypt blob none = .ok x) := by
  obtain ⟨hks, hkl⟩ := hk
  constructor
  · -- keyed path
    cases hkd : base64Decode k with
    | none => rw [hkd] at hks; simp at hks
    | some kd =>
      rw [hkd] at hkl
      simp only [Option.getD_some] at hkl
      refine ⟨base64Encode (iv ++ aesGcmEncrypt kd iv (utf8Encode (x.map Char.toNat))), ?_, ?_⟩
      · simp only [encrypt, hkd]
        rw [if_neg (by omega)]
      · have hpt : ∀ b ∈ utf8Encode (x.map Char.toNat), b < 256 :=
          utf8Encode_lt _ (charCodes_lt x hx)
        have hcomb : ∀ b ∈ iv ++ aesGcmEncrypt kd iv (utf8Encode (x.map Char.toNat)), b < 256 := by
          intro b hb
          rcases List.mem_append.mp hb with h | h
          · exact hivb b h
          · rcases List.mem_append.mp h with h2 | h2
            · exact gcmCore_lt _ _ _ hpt b h2
            · exact gcmTag_lt _ _ _ b h2
        simp only [decrypt]
        rw [not_startsWith_unencTag_base64]
        simp only [Bool.false_eq_true, if_false, hkd]
        rw [if_neg (by omega)]
        rw [base64_roundtrip _ hcomb]
        dsimp only
        rw [← hiv12, List.take_left, List.drop_left]
        rw [aesGcm_roundtrip]
        dsimp only
        rw [utf8_roundtrip _ (charCodes_lt x hx), map_ofNat_toNat]
  · -- fallback path
    refine ⟨unencTag ++ base64Encode (x.map Char.toNat), ?_, ?_⟩
    · simp only [encrypt]
      rw [if_pos (by rw [List.all_eq_true]; intro c hc; simpa using hx c hc)]
    · simp only [decrypt]
      rw [if_pos (startsWithL_append _ _)]
      rw [replaceFirstL_append _ _ (by decide)]
      rw [base64_roundtrip _ (charCodes_lt x hx)]
      dsimp only
      rw [map_ofNat_toNat]

/-- C1 witness: the round trip evaluated at the secret "hi", the base64
    encoding of the all-zero 32-byte key, and a concrete 12-byte nonce. -/
theorem c1_cipher_roundtrip_witness :
    (∃ blob, encrypt "hi".toList
        (some "AAAAAAAAAAAAAAAAAAAAAAAAAAAAAAAAAAAAAAAAAAA=".toList)
        [0, 1, 2, 3, 4, 5, 6, 7, 8, 9, 10, 11] = .ok blob ∧
      decrypt blob (some "AAAAAAAAAAAAAAAAAAAAAAAAAAAAAAAAAAAAAAAAAAA=".toList) = .ok "hi".toList) ∧
    (∃ blob, encrypt "hi".toList none [0, 1, 2, 3, 4, 5, 6, 7, 8, 9, 10, 11] = .ok blob ∧
      decrypt blob none = .ok "hi".toList) :=
  c1_cipher_roundtrip "hi".toList _ _ (by decide) (by decide) (by decide) (by decide)

/-! ## Claim C2: seal with no key configured -/

/-- C2 counterexample: with no key configured, `encrypt` does not fail with
    any configuration error — there is no production/non-production
    distinction in the code at all — it returns the tagged reversible
    encoding. -/
theorem c2_counterexample :
    encrypt "secret".toList none [] = Except.ok ("UNENCRYPTED:c2VjcmV0".toList) := by rfl

/-- C2 (amended): when no encryption key is configured, `encrypt` never
    fails regardless of context: for every byte-accurate input it produces
    the tagged reversible encoding `'UNENCRYPTED:' + btoa(text)`. -/
theorem c2_no_key_fallback (text : List Char) (iv : List Nat)
    (h : ∀ c ∈ text, c.toNat < 256) :
    encrypt text none iv = .ok (unencTag ++ base64Encode (text.map Char.toNat)) := by
  simp only [encrypt]
  rw [if_pos (by rw [List.all_eq_true]; intro c hc; simpa using h c hc)]

/-- C2 witness: the amended statement evaluated at the secret "secret". -/
theorem c2_no_key_fallback_witness :
    encrypt "secret".toList none [] =
      .ok (unencTag ++ base64Encode ("secret".toList.map Char.toNat)) :=
  c2_no_key_fallback "secret".toList [] (by decide)

/-! ## Claim C9: decrypt on `UNENCRYPTED:`-tagged blobs ignores the key -/

/-- C9. `decrypt` applied to any blob that begins with the literal prefix
    `UNENCRYPTED:` returns the base64-decoding of the remainder without
    consulting the key: the result is identical for every key (including a
    configured real key), and succeeds unauthenticated whenever the
    remainder is valid base64. -/
theorem c9_unencrypted_ignores_key (rest : List Char) (k k2 : Option (List Char)) :
    decrypt (unencTag ++ rest) k = decrypt (unencTag ++ rest) k2 ∧
    decrypt (unencTag ++ rest) k =
      (match base64Decode rest with
       | some bytes => .ok (bytes.map Char.ofNat)
       | none => .error "InvalidCharacterError".toList) := by
  have hred : ∀ key, decrypt (unencTag ++ rest) key =
      (match base64Decode rest with
       | some bytes => .ok (bytes.map Char.ofNat)
       | none => .error "InvalidCharacterError".toList) := by
    intro key
    simp only [decrypt]
    rw [if_pos (startsWithL_append _ _), replaceFirstL_append _ _ (by decide)]
  exact ⟨(hred k).trans (hred k2).symm, hred k⟩

/-! ## Sort lemmas for the normalizers -/

theorem insertJs_perm {α : Type} (key : α → Option Int) (x : α) :
    ∀ l : List α, List.Perm (insertJs key x l) (x :: l) := by
  intro l
  induction l with
  | nil => exact List.Perm.refl _
  | cons y ys ih =>
    rw [insertJs]
    split
    · split
      · exact (List.Perm.cons y ih).trans (List.Perm.swap x y ys)
      · exact List.Perm.refl _
    · exact List.Perm.refl _

theorem jsSortDesc_perm {α : Type} (key : α → Option Int) :
    ∀ l : List α, List.Perm (jsSortDesc key l) l := by
  intro l
  induction l with
  | nil => exact List.Perm.refl _
  | cons x xs ih =>
    rw [jsSortDesc]
    exact ((insertJs_perm key x _).trans (List.Perm.cons x ih))

theorem insertJs_pairwise {α : Type} (key : α → Option Int) (x : α) :
    ∀ l : List α, (key x).isSome = true → (∀ y ∈ l, (key y).isSome = true) →
    List.Pairwise (keyGe key) l → List.Pairwise (keyGe key) (insertJs key x l) := by
  intro l
  induction l with
  | nil => intro _ _ _; simp [insertJs]
  | cons y ys ih =>
    intro hx hl hp
    obtain ⟨kx, hkx⟩ := Option.isSome_iff_exists.mp hx
    obtain ⟨ky, hky⟩ := Option.isSome_iff_exists.mp (hl y (by simp))
    rw [insertJs, hkx, hky]
    simp only [cmpVal]
    by_cases hv : ky - kx > 0
    · rw [if_pos hv]
      rw [List.pairwise_cons]
      constructor
      · intro z hz
        rcases List.mem_cons.mp ((insertJs_perm key x ys).mem_iff.mp hz) with h | h
        · subst h
          show (key y).getD 0 ≥ (key z).getD 0
          rw [hky, hkx]
          simp only [Option.getD_some]
          omega
        · exact (List.pairwise_cons.mp hp).1 z h
      · exact ih hx (fun z hz => hl z (by simp [hz])) (List.Pairwise.of_cons hp)
    · rw [if_neg hv]
      rw [List.pairwise_cons]
      constructor
      · intro z hz
        rcases List.mem_cons.mp hz with h | h
        · subst h
          show (key x).getD 0 ≥ (key z).getD 0
          rw [hkx, hky]
          simp only [Option.getD_some]
          omega
        · have h1 : (key y).getD 0 ≥ (key z).getD 0 := (List.pairwise_cons.mp hp).1 z h
          show (key x).getD 0 ≥ (key z).getD 0
          rw [hky] at h1
          rw [hkx]
          simp only [Option.getD_some] at h1 ⊢
          omega
      · exact hp

theorem jsSortDesc_pairwise {α : Type} (key : α → Option Int) :
    ∀ l : List α, (∀ y ∈ l, (key y).isSome = true) →
    List.Pairwise (keyGe key) (jsSortDesc key l) := by
  intro l
  induction l with
  | nil => intro _; simp [jsSortDesc]
  | cons x xs ih =>
    intro hl
    rw [jsSortDesc]
    refine insertJs_pairwise key x _ (hl x (by simp)) ?_ (ih (fun y hy => hl y (by simp [hy])))
    intro y hy
    exact hl y (by simp [(jsSortDesc_perm key xs).mem_iff.mp hy])

theorem parser_sort_spec {β γ : Type} (key : γ → Option Int) (p : β → Bool) (f : β → γ)
    (l : List β) :
    List.Perm (jsSortDesc key ((l.filter p).map f)) ((l.filter p).map f) ∧
    ((∀ c ∈ l, p c = true → (key (f c)).isSome = true) →
      List.Pairwise (keyGe key) (jsSortDesc key ((l.filter p).map f))) := by
  constructor
  · exact jsSortDesc_perm key _
  · intro h
    refine jsSortDesc_pairwise key _ ?_
    intro v hv
    obtain ⟨c, hc, hvc⟩ := List.mem_map.mp hv
    obtain ⟨hcl, hpc⟩ := List.mem_filter.mp hc
    exact hvc ▸ h c hcl hpc

/-! ## Claim C4: normalizer ordering and filtering -/

/-- C4 (amended): every list normalizer silently drops entries of a
    non-matching resource kind without raising — its output is a permutation
    of the parses of exactly the matching entries — and, whenever the date
    of every retained entry parses (a null date coerces to the epoch), the
    output is sorted non-increasing by the date key.  An entry whose date
    fails to parse yields a NaN comparator value, which the sort leaves in
    place rather than sorting last (see the counterexample). -/
theorem c4_normalizer_sorting (lc : List CondResource) (lm : List MedResource)
    (ld : List DocResource) (lo : List ObsResource) :
    (List.Perm (parseConditions (.arr lc))
        ((lc.filter (fun c => c.resourceType == "Condition".toList)).map parseCondition1) ∧
      ((∀ c ∈ lc, c.resourceType = "Condition".toList →
          (condKey (parseCondition1 c)).isSome = true) →
        List.Pairwise (keyGe condKey) (parseConditions (.arr lc)))) ∧
    (List.Perm (parseMedications (.arr lm))
        ((lm.filter (fun m => m.resourceType == "MedicationRequest".toList)).map
          parseMedication1) ∧
      ((∀ m ∈ lm, m.resourceType = "MedicationRequest".toList →
          (medKey (parseMedication1 m)).isSome = true) →
        List.Pairwise (keyGe medKey) (parseMedications (.arr lm)))) ∧
    (List.Perm (parseDocuments (.arr ld))
        ((ld.filter (fun d => d.resourceType == "DocumentReference".toList)).map
          parseDocument1) ∧
      ((∀ d ∈ ld, d.resourceType = "DocumentReference".toList →
          (docKey (parseDocument1 d)).isSome = true) →
        List.Pairwise (keyGe docKey) (parseDocuments (.arr ld)))) ∧
    (List.Perm (parseObservations (.arr lo))
        ((lo.filter (fun o => o.resourceType == "Observation".toList)).map parseObservation1) ∧
      ((∀ o ∈ lo, o.resourceType = "Observation".toList →
          (obsKey (parseObservation1 o)).isSome = true) →
        List.Pairwise (keyGe obsKey) (parseObservations (.arr lo)))) := by
  refine ⟨⟨?_, ?_⟩, ⟨?_, ?_⟩, ⟨?_, ?_⟩, ⟨?_, ?_⟩⟩
  · exact (parser_sort_spec condKey _ parseCondition1 lc).1
  · intro h
    exact (parser_sort_spec condKey _ parseCondition1 lc).2
      (fun c hc hpc => h c hc (by simpa using hpc))
  · exact (parser_sort_spec medKey _ parseMedication1 lm).1
  · intro h
    exact (parser_sort_spec medKey _ parseMedication1 lm).2
      (fun c hc hpc => h c hc (by simpa using hpc))
  · exact (parser_sort_spec docKey _ parseDocument1 ld).1
  · intro h
    exact (parser_sort_spec docKey _ parseDocument1 ld).2
      (fun c hc hpc => h c hc (by simpa using hpc))
  · exact (parser_sort_spec obsKey _ parseObservation1 lo).1
  · intro h
    exact (parser_sort_spec obsKey _ parseObservation1 lo).2
      (fun c hc hpc => h c hc (by simpa using hpc))

/-- C4 counterexample: an entry with an unparseable onset date does NOT
    sort last — `parseConditions` keeps it first, before an entry with a
    parseable 2020 date, because the comparator yields NaN. -/
theorem c4_counterexample :
    parseConditions (.arr [cexCondA, cexCondB]) =
      [parseCondition1 cexCondA, parseCondition1 cexCondB] ∧
    dateKey (parseCondition1 cexCondA).onsetDate = none ∧
    dateKey (parseCondition1 cexCondB).onsetDate = some 500400 := by decide

/-- C4 witness: the amended statement evaluated on concrete lists whose
    dates all parse. -/
theorem c4_normalizer_sorting_witness :
    (List.Perm (parseConditions (.arr [cexCondB]))
        (([cexCondB].filter (fun c => c.resourceType == "Condition".toList)).map
          parseCondition1) ∧
      List.Pairwise (keyGe condKey) (parseConditions (.arr [cexCondB]))) ∧
    (List.Perm (parseMedications (.arr []))
        (((List.nil).filter (fun m => m.resourceType == "MedicationRequest".toList)).map
          parseMedication1) ∧
      List.Pairwise (keyGe medKey) (parseMedications (.arr []))) ∧
    (List.Perm (parseDocuments (.arr []))
        (((List.nil).filter (fun d => d.resourceType == "DocumentReference".toList)).map
          parseDocument1) ∧
      List.Pairwise (keyGe docKey) (parseDocuments (.arr []))) ∧
    (List.Perm (parseObservations (.arr []))
        (((List.nil).filter (fun o => o.resourceType == "Observation".toList)).map
          parseObservation1) ∧
      List.Pairwise (keyGe obsKey) (parseObservations (.arr []))) := by
  have h := c4_normalizer_sorting [cexCondB] [] [] []
  exact ⟨⟨h.1.1, h.1.2 (by decide)⟩, ⟨h.2.1.1, h.2.1.2 (by decide)⟩,
    ⟨h.2.2.1.1, h.2.2.1.2 (by decide)⟩, ⟨h.2.2.2.1, h.2.2.2.2 (by decide)⟩⟩

/-! ## Claim C5: normalizer totality and top-level shape errors -/

/-- C5 counterexample: on a non-list top-level input the list normalizers
    return the empty list — they do not fail with any error. -/
theorem c5_counterexample :
    parseConditions JArg.nonArray = [] ∧ parseMedications JArg.nonArray = [] ∧
    parseDocuments JArg.nonArray = [] ∧ parseObservations JArg.nonArray = [] :=
  ⟨rfl, rfl, rfl, rfl⟩

/-- C5 (amended): every normalizer is total on malformed optional
    sub-fields; `parsePatient` fails with `Invalid Patient resource` exactly
    when the top-level input is null or of a wrong resource kind, while the
    list normalizers return `[]` (not an error) on a non-list input. -/
theorem c5_normalizer_totality (p : Option PatientResource) (td : DateT) :
    ((∃ q, p = some q ∧ q.resourceType = "Patient".toList) →
      (parsePatient p td).isOk = true) ∧
    (¬(∃ q, p = some q ∧ q.resourceType = "Patient".toList) →
      parsePatient p td = .error "Invalid Patient resource".toList) ∧
    (parseConditions JArg.nonArray = [] ∧ parseMedications JArg.nonArray = [] ∧
      parseDocuments JArg.nonArray = [] ∧ parseObservations JArg.nonArray = []) := by
  refine ⟨?_, ?_, rfl, rfl, rfl, rfl⟩
  · rintro ⟨q, rfl, hq⟩
    simp only [parsePatient]
    rw [if_neg (by simp [hq])]
    rfl
  · intro h
    cases p with
    | none => rfl
    | some q =>
      by_cases hq : q.resourceType = "Patient".toList
      · exact absurd ⟨q, rfl, hq⟩ h
      · simp only [parsePatient]
        rw [if_pos hq]

/-- C5 witness: a well-formed Patient parses; the list normalizers return
    `[]` on a non-list input. -/
theorem c5_normalizer_totality_witness :
    (parsePatient (some cexPatient) cexToday).isOk = true ∧
    (parseConditions JArg.nonArray = [] ∧ parseMedications JArg.nonArray = [] ∧
      parseDocuments JArg.nonArray = [] ∧ parseObservations JArg.nonArray = []) := by
  have h := c5_normalizer_totality (some cexPatient) cexToday
  exact ⟨h.1 ⟨cexPatient, rfl, by decide⟩, h.2.2⟩

/-! ## Claim C3: CSRF guard in the OAuth callback -/

/-- C3. `handleEpicCallback` called with a state that does not exactly match
    the previously stored state always fails with the CSRF error and
    performs zero token-endpoint calls, for every code and every mismatched
    state. -/
theorem c3_csrf_guard (code : List Char) (st : Option (List Char)) (env : CallbackEnv)
    (h : st ≠ env.sessionState) :
    handleEpicCallback code st env = (.error .csrf, 0) := by
  simp only [handleEpicCallback]
  rw [if_pos h]

/-- C3 witness: a concrete mismatched state fails with the CSRF error and
    makes no token-endpoint call. -/
theorem c3_csrf_guard_witness :
    (some "attacker-state".toList ≠ cexCallbackEnv.sessionState) ∧
    handleEpicCallback "authcode".toList (some "attacker-state".toList) cexCallbackEnv =
      (.error .csrf, 0) :=
  ⟨by decide, c3_csrf_guard _ _ _ (by decide)⟩

/-! ## Claim C6: token supplier performs no network call when not expired -/

/-- C6. For every stored credential whose expiry is strictly in the future,
    `getEpicToken` returns the decryption of the stored access secret and
    performs zero network calls (and zero audit writes); the refresh path is
    taken only when `now >= expiry`. -/
theorem c6_token_supplier_no_network (row : TokenRow) (env : RefreshEnv)
    (h : env.nowMs < row.expires_at) :
    getEpicToken (some row) env = ⟨decryptResult row.access_token env.key, 0, 0⟩ := by
  simp only [getEpicToken]
  rw [if_neg (by omega)]

/-- C6 witness: a non-expired concrete credential is returned decrypted with
    zero network calls. -/
theorem c6_token_supplier_no_network_witness :
    cexRefreshEnv.nowMs < cexTokenRow.expires_at ∧
    getEpicToken (some cexTokenRow) cexRefreshEnv =
      ⟨decryptResult cexTokenRow.access_token cexRefreshEnv.key, 0, 0⟩ ∧
    decryptResult cexTokenRow.access_token cexRefreshEnv.key = .ok "hi".toList :=
  ⟨by decide, c6_token_supplier_no_network _ _ (by decide), rfl⟩

/-! ## Claim C7: audit recording is fire-and-forget -/

/-- C7. `logAuditEvent` swallows every store-insert failure (it never
    returns an error), and consequently the operation that triggered the
    audit write — here `fetchPatientData` — returns identical results
    whatever the audit-insert outcome. -/
theorem c7_audit_fire_and_forget (o o1 o2 : Except (List Char) Unit)
    (de pid : List Char) (cy : Int) (env : FetchEnv) :
    logAuditEvent o = .ok () ∧
    fetchPatientData de pid cy { env with auditOutcome := o1 } =
      fetchPatientData de pid cy { env with auditOutcome := o2 } := by
  constructor
  · cases o <;> rfl
  · cases o1 <;> cases o2 <;> rfl

/-! ## Claim C8: search audit events and the demo filter -/

/-- C8 counterexample: a demo-mode search succeeds (filtering the fixtures)
    yet emits zero audit events — the source's demo path returns before any
    `logAuditEvent` call. -/
theorem c8_counterexample :
    (searchEpicPatients demoEmail "wash".toList 2026 cexSearchEnv).result.isOk = true ∧
    (searchEpicPatients demoEmail "wash".toList 2026 cexSearchEnv).audits = 0 :=
  ⟨rfl, rfl⟩

/-- C8 (amended): the demo search path filters the five fixture patients by
    case-insensitive substring match against name, MRN, or email, and emits
    no audit event; only a successful production search emits one audit
    event (beyond any emitted by a token refresh). -/
theorem c8_search_audit (doctorEmail query : List Char) (cy : Int) (env : SearchEnv) :
    ((env.demoMode = true ∨ doctorEmail = demoEmail) →
      (searchEpicPatients doctorEmail query cy env).audits = 0 ∧
      (searchEpicPatients doctorEmail query cy env).result =
        .ok (.demo (if query ≠ [] ∧ trimL query ≠ []
          then (getDemoPatients cy).filter (demoQueryMatch query)
          else getDemoPatients cy))) ∧
    (¬(env.demoMode = true ∨ doctorEmail = demoEmail) →
      (searchEpicPatients doctorEmail query cy env).result.isOk = true →
      (searchEpicPatients doctorEmail query cy env).audits =
        (getEpicToken env.row env.refEnv).audits + 1) := by
  constructor
  · intro h
    have hb : (env.demoMode || doctorEmail == demoEmail) = true := by
      rcases h with h | h
      · simp [h]
      · simp [h]
    simp only [searchEpicPatients, hb, if_true]
    by_cases hq : query ≠ [] ∧ trimL query ≠ []
    · rw [if_pos hq, if_pos hq]
      exact ⟨rfl, rfl⟩
    · rw [if_neg hq, if_neg hq]
      exact ⟨rfl, rfl⟩
  · intro h
    obtain ⟨h1, h2⟩ := not_or.mp h
    have hb : (env.demoMode || doctorEmail == demoEmail) = false := by
      rw [Bool.not_eq_true] at h1
      rw [h1, beq_eq_false_iff_ne.mpr h2]
      rfl
    simp only [searchEpicPatients, hb, Bool.false_eq_true, if_false]
    rcases hge : getEpicToken env.row env.refEnv with ⟨res, n, a⟩
    cases res with
    | error e =>
      intro hok
      simp [Except.isOk, Except.toBool] at hok
    | ok tok =>
      cases hsv : env.searchOk with
      | false =>
        intro hok
        simp [hsv, Except.isOk, Except.toBool] at hok
      | true =>
        simp only [hsv, Bool.not_true, Bool.false_eq_true, if_false]
        rcases hm : (env.entries.getD []).mapM (fun entry => parsePatient entry env.today) with m | pats
        · intro hok
          simp [Except.isOk, Except.toBool] at hok
        · cases ha : env.auditOutcome <;> (intro _; rfl)

/-- C8 witness: the amended statement evaluated at the demo principal with
    the query "wash". -/
theorem c8_search_audit_witness :
    (searchEpicPatients demoEmail "wash".toList 2026 cexSearchEnv).audits = 0 ∧
    (searchEpicPatients demoEmail "wash".toList 2026 cexSearchEnv).result =
      .ok (.demo (if "wash".toList ≠ [] ∧ trimL "wash".toList ≠ []
        then (getDemoPatients 2026).filter (demoQueryMatch "wash".toList)
        else getDemoPatients 2026)) :=
  (c8_search_audit demoEmail "wash".toList 2026 cexSearchEnv).1 (Or.inr rfl)

/-! ## Claim C10: unknown demo-patient ids fall back to fixture 1 -/

/-- C10. For every external patient id beginning with `demo-patient-` that
    is not one of the five fixture ids, `fetchPatientData` does not fail: it
    returns, and persists as the snapshot row, the fixture bundle of
    demo-patient-1, with no network call. -/
theorem c10_unknown_demo_id_fallback (doctorEmail pid : List Char) (cy : Int) (env : FetchEnv)
    (h1 : startsWithL demoIdTag pid = true)
    (h2 : pid ∉ demoFixtureIds)
    (h3 : env.storeError = none) :
    fetchPatientData doctorEmail pid cy env =
      { result := .ok (.demo (demoBundle1 cy)),
        stored := some (snapshotOfDemo doctorEmail pid env.nowMs (demoBundle1 cy)),
        audits := 1, net := 0 } := by
  have hd : getDemoPatientData cy pid = demoBundle1 cy := by
    simp only [demoFixtureIds, List.mem_cons, List.not_mem_nil, or_false, not_or] at h2
    obtain ⟨n1, n2, n3, n4, n5⟩ := h2
    simp only [getDemoPatientData, if_neg n1, if_neg n2, if_neg n3, if_neg n4, if_neg n5]
  simp only [fetchPatientData, h1, Bool.or_true, if_true, h3, hd]
  cases ha : env.auditOutcome <;> rfl

/-- C10 witness: the unknown id demo-patient-42 returns and persists the
    demo-patient-1 fixture bundle. -/
theorem c10_unknown_demo_id_fallback_witness :
    startsWithL demoIdTag "demo-patient-42".toList = true ∧
    "demo-patient-42".toList ∉ demoFixtureIds ∧
    fetchPatientData "doc@x".toList "demo-patient-42".toList 2026 cexFetchEnv =
      { result := .ok (.demo (demoBundle1 2026)),
        stored := some (snapshotOfDemo "doc@x".toList "demo-patient-42".toList
          cexFetchEnv.nowMs (demoBundle1 2026)),
        audits := 1, net := 0 } :=
  ⟨by decide, by decide,
    c10_unknown_demo_id_fallback _ _ _ _ (by decide) (by decide) rfl⟩
